import Mathlib

/-!
Shallow embedding of the Joystream forum runtime module
(src/runtime-modules/forum/src/lib.rs).

Identifiers (accounts, categories, threads, posts, moderators, forum
users), hash values and moments are modelled as natural numbers.  The
storage maps are association lists with substrate ValueQuery semantics:
reading an absent key yields the default value of the value type, and
mutating an absent key writes through that default.  Each dispatchable
returns its dispatch result together with the resulting storage state and
the list of deposited events; an error result does not roll back storage
writes that happened before the error, mirroring the pre-transactional
dispatch semantics the module is written for.
-/

namespace Forum

/-- Association-list lookup, leftmost binding wins. -/
def alookup {K V : Type} [DecidableEq K] : List (K × V) → K → Option V
  | [], _ => none
  | (k', v) :: rest, k => if k = k' then some v else alookup rest k

/-- Key membership test, mirroring the storage contains check. -/
def acontains {K V : Type} [DecidableEq K] (l : List (K × V)) (k : K) : Bool :=
  (alookup l k).isSome

/-- Insert or overwrite a binding, keeping at most one binding per key. -/
def ainsert {K V : Type} [DecidableEq K] : List (K × V) → K → V → List (K × V)
  | [], k, v => [(k, v)]
  | (k', v') :: rest, k, v =>
      if k = k' then (k, v) :: rest else (k', v') :: ainsert rest k v

/-- Remove every binding of a key. -/
def aremove {K V : Type} [DecidableEq K] : List (K × V) → K → List (K × V)
  | [], _ => []
  | (k', v') :: rest, k =>
      if k = k' then aremove rest k else (k', v') :: aremove rest k

/-- Length constraint for input validation (u16 fields in the source). -/
structure InputValidationLengthConstraint where
  min : Nat
  max_min_diff : Nat
deriving DecidableEq

/-- Helper for computing max, as in the source. -/
def InputValidationLengthConstraint.max (c : InputValidationLengthConstraint) : Nat :=
  c.min + c.max_min_diff

/-- One poll alternative together with its vote count. -/
structure PollAlternative where
  alternative_text_hash : Nat
  vote_count : Nat
deriving DecidableEq

/-- A poll embedded in a thread. -/
structure Poll where
  description_hash : Nat
  end_time : Nat
  poll_alternatives : List PollAlternative
deriving DecidableEq

/-- A thread post. -/
structure Post where
  thread_id : Nat
  text_hash : Nat
  author_id : Nat
deriving DecidableEq

/-- A thread. -/
structure Thread where
  title_hash : Nat
  category_id : Nat
  author_id : Nat
  archived : Bool
  poll : Option Poll
  num_direct_posts : Nat
deriving DecidableEq

/-- A category node of the moderation tree. -/
structure Category where
  title_hash : Nat
  description_hash : Nat
  archived : Bool
  num_direct_subcategories : Nat
  num_direct_threads : Nat
  num_direct_moderators : Nat
  parent_category_id : Option Nat
  sticky_thread_ids : List Nat
deriving DecidableEq

/-- The two privileged actor kinds. -/
inductive PrivilegedActor where
  | Lead : PrivilegedActor
  | Moderator : Nat → PrivilegedActor
deriving DecidableEq

/-- The forum error enum, with the source's variant names. -/
inductive ForumError where
  | OriginNotForumLead
  | ForumUserIdNotMatchAccount
  | ModeratorIdNotMatchAccount
  | AccountDoesNotMatchThreadAuthor
  | ThreadDoesNotExist
  | ModeratorModerateOriginCategory
  | ModeratorModerateDestinationCategory
  | ThreadMoveInvalid
  | ThreadNotBeingUpdated
  | ThreadImmutable
  | PostDoesNotExist
  | AccountDoesNotMatchPostAuthor
  | CategoryNotBeingUpdated
  | AncestorCategoryImmutable
  | MaxValidCategoryDepthExceeded
  | CategoryDoesNotExist
  | CategoryNotEmptyThreads
  | CategoryNotEmptyCategories
  | ModeratorCantDeleteCategory
  | ModeratorCantUpdateCategory
  | PollAlternativesTooShort
  | PollAlternativesTooLong
  | PollNotExist
  | PollTimeSetting
  | PollData
  | PollCommitExpired
  | DataMigrationNotDone
  | MapSizeLimit
deriving DecidableEq

/-- The deposited events, with the source's variant names. -/
inductive ForumEvent where
  | CategoryCreated (category_id : Nat)
  | CategoryUpdated (category_id : Nat) (new_archival_status : Bool)
  | CategoryDeleted (category_id : Nat)
  | ThreadCreated (thread_id : Nat)
  | ThreadModerated (thread_id : Nat) (rationale : List Nat)
  | ThreadUpdated (thread_id : Nat) (new_archival_status : Bool)
  | ThreadTitleUpdated (thread_id : Nat)
  | ThreadDeleted (thread_id : Nat)
  | ThreadMoved (thread_id : Nat) (new_category_id : Nat)
  | PostAdded (post_id : Nat)
  | PostModerated (post_id : Nat) (rationale : List Nat)
  | PostTextUpdated (post_id : Nat)
  | PostReacted (forum_user_id : Nat) (post_id : Nat) (react : Nat)
  | VoteOnPoll (thread_id : Nat) (index : Nat)
  | CategoryStickyThreadUpdate (category_id : Nat) (ids : List Nat)
deriving DecidableEq

/-- The declared storage of the module, plus the legacy storage keys that
live under the storage key space cleared by
update_category_membership_of_moderator. -/
structure ForumState where
  categoryById : List (Nat × Category)
  nextCategoryId : Nat
  categoryCounter : Nat
  threadById : List ((Nat × Nat) × Thread)
  nextThreadId : Nat
  postById : List ((Nat × Nat) × Post)
  nextPostId : Nat
  categoryByModerator : List ((Nat × Nat) × Unit)
  pollItemsConstraint : InputValidationLengthConstraint
  dataMigrationDone : Bool
  legacyForumUserById : List Nat
deriving DecidableEq

/-- Configuration constants, injected role checks, the content hash
function and the current moment, fixed for the duration of one call. -/
structure Env where
  MaxCategoryDepth : Nat
  MaxSubcategories : Nat
  MaxThreadsInCategory : Nat
  MaxPostsInThread : Nat
  MaxModeratorsForCategory : Nat
  MaxCategories : Nat
  is_lead : Nat → Bool
  is_forum_member : Nat → Nat → Bool
  is_moderator : Nat → Nat → Bool
  calculate_hash : List Nat → Nat
  now : Nat

/-- Default category value (substrate ValueQuery default). -/
def defaultCategory : Category :=
  { title_hash := 0
    description_hash := 0
    archived := false
    num_direct_subcategories := 0
    num_direct_threads := 0
    num_direct_moderators := 0
    parent_category_id := none
    sticky_thread_ids := [] }

/-- Default thread value (substrate ValueQuery default). -/
def defaultThread : Thread :=
  { title_hash := 0
    category_id := 0
    author_id := 0
    archived := false
    poll := none
    num_direct_posts := 0 }

/-- Default post value (substrate ValueQuery default). -/
def defaultPost : Post :=
  { thread_id := 0, text_hash := 0, author_id := 0 }

/-- CategoryById get: default value when the key is absent. -/
def categoryGet (s : ForumState) (category_id : Nat) : Category :=
  (alookup s.categoryById category_id).getD defaultCategory

/-- CategoryById mutate: read (default when absent), apply, write back. -/
def catMutate (s : ForumState) (category_id : Nat) (f : Category → Category) : ForumState :=
  { s with categoryById := ainsert s.categoryById category_id (f (categoryGet s category_id)) }

/-- ThreadById get: default value when the key is absent. -/
def threadGet (s : ForumState) (category_id thread_id : Nat) : Thread :=
  (alookup s.threadById (category_id, thread_id)).getD defaultThread

/-- ThreadById mutate: read (default when absent), apply, write back. -/
def threadMutate (s : ForumState) (category_id thread_id : Nat) (f : Thread → Thread) : ForumState :=
  { s with threadById := ainsert s.threadById (category_id, thread_id) (f (threadGet s category_id thread_id)) }

/-- PostById get: default value when the key is absent. -/
def postGet (s : ForumState) (thread_id post_id : Nat) : Post :=
  (alookup s.postById (thread_id, post_id)).getD defaultPost

/-- PostById mutate: read (default when absent), apply, write back. -/
def postMutate (s : ForumState) (thread_id post_id : Nat) (f : Post → Post) : ForumState :=
  { s with postById := ainsert s.postById (thread_id, post_id) (f (postGet s thread_id post_id)) }

instance exceptDecEq {ε α : Type} [DecidableEq ε] [DecidableEq α] : DecidableEq (Except ε α)
  | .ok a, .ok b =>
      if h : a = b then isTrue (by rw [h]) else isFalse (by simp [h])
  | .ok _, .error _ => isFalse (by simp)
  | .error _, .ok _ => isFalse (by simp)
  | .error a, .error b =>
      if h : a = b then isTrue (by rw [h]) else isFalse (by simp [h])

/-- The outcome of one dispatchable call: the dispatch result, the
resulting storage state, and the deposited events. -/
structure Outcome where
  result : Except ForumError Unit
  state : ForumState
  events : List ForumEvent
deriving DecidableEq

/-- ensure_data_migration_done. -/
def ensureDataMigrationDone (s : ForumState) : Except ForumError Unit :=
  if s.dataMigrationDone then .ok () else .error .DataMigrationNotDone

/-- ensure_is_forum_lead_account. -/
def ensureIsForumLeadAccount (env : Env) (account_id : Nat) : Except ForumError Unit :=
  if env.is_lead account_id then .ok () else .error .OriginNotForumLead

/-- ensure_is_forum_user. -/
def ensureIsForumUser (env : Env) (account_id forum_user_id : Nat) : Except ForumError Unit :=
  if env.is_forum_member account_id forum_user_id then .ok ()
  else .error .ForumUserIdNotMatchAccount

/-- ensure_is_moderator_account. -/
def ensureIsModeratorAccount (env : Env) (account_id moderator_id : Nat) : Except ForumError Unit :=
  if env.is_moderator account_id moderator_id then .ok ()
  else .error .ModeratorIdNotMatchAccount

/-- ensure_actor_role. -/
def ensureActorRole (env : Env) (account_id : Nat) (actor : PrivilegedActor) : Except ForumError Unit :=
  match actor with
  | .Lead => ensureIsForumLeadAccount env account_id
  | .Moderator moderator_id => ensureIsModeratorAccount env account_id moderator_id

/-- Fuel bound for the ancestor walk; on acyclic storage every parent
chain of stored categories is shorter than this. -/
def pathFuel (s : ForumState) : Nat :=
  s.categoryById.length + 1

/-- The recursive worker of build_category_tree_path, made structurally
terminating through fuel. -/
def buildCategoryTreePathAux (s : ForumState) : Nat → Nat → List (Nat × Category)
  | 0, _ => []
  | fuel + 1, category_id =>
      let category := categoryGet s category_id
      (category_id, category) ::
        (match category.parent_category_id with
          | none => []
          | some parent_category_id => buildCategoryTreePathAux s fuel parent_category_id)

/-- build_category_tree_path: the leaf-to-root sequence of (id, category)
pairs starting at the given category. -/
def buildCategoryTreePath (s : ForumState) (category_id : Nat) : List (Nat × Category) :=
  buildCategoryTreePathAux s (pathFuel s) category_id

/-- ensure_can_mutate_in_path_leaf: no category in the path is archived. -/
def ensureCanMutateInPathLeaf (category_tree_path : List (Nat × Category)) : Except ForumError Unit :=
  if category_tree_path.any (fun item => item.2.archived) then .error .AncestorCategoryImmutable
  else .ok ()

/-- ensure_category_is_mutable. -/
def ensureCategoryIsMutable (s : ForumState) (category_id : Nat) : Except ForumError Category :=
  let category_tree_path := buildCategoryTreePath s category_id
  match ensureCanMutateInPathLeaf category_tree_path with
  | .error e => .error e
  | .ok _ => .ok (category_tree_path.headD (0, defaultCategory)).2

/-- ensure_valid_category_and_build_category_tree_path. -/
def ensureValidCategoryAndBuildCategoryTreePath (s : ForumState) (category_id : Nat) :
    Except ForumError (List (Nat × Category)) :=
  if acontains s.categoryById category_id then .ok (buildCategoryTreePath s category_id)
  else .error .CategoryDoesNotExist

/-- ensure_map_limits: rejects when the current amount has reached the limit. -/
def ensureMapLimits (current_amount limit : Nat) : Except ForumError Unit :=
  if current_amount ≥ limit then .error .MapSizeLimit else .ok ()

/-- ensure_can_add_subcategory_path_leaf: existence, then depth, then
archival along the parent path. -/
def ensureCanAddSubcategoryPathLeaf (env : Env) (s : ForumState) (parent_category_id : Nat) :
    Except ForumError Unit :=
  match ensureValidCategoryAndBuildCategoryTreePath s parent_category_id with
  | .error e => .error e
  | .ok category_tree_path =>
      if category_tree_path.length ≥ env.MaxCategoryDepth then .error .MaxValidCategoryDepthExceeded
      else ensureCanMutateInPathLeaf category_tree_path

/-- ensure_can_create_category. -/
def ensureCanCreateCategory (env : Env) (s : ForumState) (account_id : Nat)
    (parent_category_id : Option Nat) : Except ForumError Unit :=
  match ensureIsForumLeadAccount env account_id with
  | .error e => .error e
  | .ok _ =>
      match ensureMapLimits s.categoryCounter env.MaxCategories with
      | .error e => .error e
      | .ok _ =>
          match parent_category_id with
          | none => .ok ()
          | some tmp_parent_category_id =>
              match ensureCanAddSubcategoryPathLeaf env s tmp_parent_category_id with
              | .error e => .error e
              | .ok _ =>
                  ensureMapLimits (categoryGet s tmp_parent_category_id).num_direct_subcategories
                    env.MaxSubcategories

/-- The moderator membership loop of ensure_can_moderate_category_path. -/
def check_moderator (s : ForumState) : List (Nat × Category) → Nat → Except ForumError Unit
  | [], _ => .error .ModeratorCantUpdateCategory
  | item :: rest, moderator_id =>
      if acontains s.categoryByModerator (item.1, moderator_id) then .ok ()
      else check_moderator s rest moderator_id

/-- ensure_can_moderate_category_path. -/
def ensureCanModerateCategoryPath (s : ForumState) (actor : PrivilegedActor) (category_id : Nat) :
    Except ForumError Category :=
  let category_tree_path := buildCategoryTreePath s category_id
  match actor with
  | .Lead => .ok (category_tree_path.headD (0, defaultCategory)).2
  | .Moderator moderator_id =>
      match check_moderator s category_tree_path moderator_id with
      | .error e => .error e
      | .ok _ => .ok (category_tree_path.headD (0, defaultCategory)).2

/-- ensure_can_moderate_category. -/
def ensureCanModerateCategory (env : Env) (s : ForumState) (account_id : Nat)
    (actor : PrivilegedActor) (category_id : Nat) : Except ForumError Unit :=
  match ensureActorRole env account_id actor with
  | .error e => .error e
  | .ok _ =>
      match ensureCanModerateCategoryPath s actor category_id with
      | .error e => .error e
      | .ok _ => .ok ()

/-- ensure_thread_exists. -/
def ensureThreadExists (s : ForumState) (category_id thread_id : Nat) : Except ForumError Thread :=
  match alookup s.threadById (category_id, thread_id) with
  | none => .error .ThreadDoesNotExist
  | some thread => .ok thread

/-- ensure_thread_is_mutable. -/
def ensureThreadIsMutable (s : ForumState) (category_id thread_id : Nat) :
    Except ForumError (Category × Thread) :=
  match ensureThreadExists s category_id thread_id with
  | .error e => .error e
  | .ok thread =>
      if thread.archived then .error .ThreadImmutable
      else
        match ensureCategoryIsMutable s category_id with
        | .error e => .error e
        | .ok category => .ok (category, thread)

/-- ensure_can_update_thread_archival_status. -/
def ensureCanUpdateThreadArchivalStatus (env : Env) (s : ForumState) (account_id : Nat)
    (actor : PrivilegedActor) (category_id thread_id : Nat) :
    Except ForumError (Category × Thread) :=
  match ensureActorRole env account_id actor with
  | .error e => .error e
  | .ok _ =>
      match ensureThreadIsMutable s category_id thread_id with
      | .error e => .error e
      | .ok ct =>
          match ensureCanModerateCategoryPath s actor category_id with
          | .error e => .error e
          | .ok _ => .ok ct

/-- ensure_is_thread_author. -/
def ensureIsThreadAuthor (s : ForumState) (category_id thread_id forum_user_id : Nat) :
    Except ForumError Thread :=
  match ensureThreadIsMutable s category_id thread_id with
  | .error e => .error e
  | .ok (_, thread) =>
      if thread.author_id ≠ forum_user_id then .error .AccountDoesNotMatchThreadAuthor
      else .ok thread

/-- ensure_can_edit_thread_title. -/
def ensureCanEditThreadTitle (env : Env) (s : ForumState) (account_id category_id thread_id forum_user_id : Nat) :
    Except ForumError Thread :=
  match ensureIsForumUser env account_id forum_user_id with
  | .error e => .error e
  | .ok _ => ensureIsThreadAuthor s category_id thread_id forum_user_id

/-- ensure_can_moderate_thread. -/
def ensureCanModerateThread (env : Env) (s : ForumState) (account_id : Nat)
    (actor : PrivilegedActor) (category_id thread_id : Nat) : Except ForumError Thread :=
  match ensureCanModerateCategory env s account_id actor category_id with
  | .error e => .error e
  | .ok _ => ensureThreadExists s category_id thread_id

/-- ensure_can_move_thread. -/
def ensureCanMoveThread (env : Env) (s : ForumState) (account_id : Nat)
    (actor : PrivilegedActor) (category_id thread_id new_category_id : Nat) :
    Except ForumError Thread :=
  if category_id = new_category_id then .error .ThreadMoveInvalid
  else
    match ensureCanModerateThread env s account_id actor category_id thread_id with
    | .error _ => .error .ModeratorModerateOriginCategory
    | .ok thread =>
        match ensureCanModerateCategoryPath s actor new_category_id with
        | .error _ => .error .ModeratorModerateDestinationCategory
        | .ok _ => .ok thread

/-- ensure_can_delete_category. -/
def ensureCanDeleteCategory (env : Env) (s : ForumState) (account_id : Nat)
    (actor : PrivilegedActor) (category_id : Nat) : Except ForumError Category :=
  match ensureActorRole env account_id actor with
  | .error e => .error e
  | .ok _ =>
      if acontains s.categoryById category_id = false then .error .CategoryDoesNotExist
      else
        let category := categoryGet s category_id
        if category.num_direct_threads ≠ 0 then .error .CategoryNotEmptyThreads
        else if category.num_direct_subcategories ≠ 0 then .error .CategoryNotEmptyCategories
        else
          match category.parent_category_id with
          | some parent_category_id =>
              match ensureCanModerateCategoryPath s actor parent_category_id with
              | .error _ => .error .ModeratorCantDeleteCategory
              | .ok _ => .ok category
          | none =>
              match actor with
              | .Lead => .ok category
              | .Moderator _ => .error .ModeratorCantDeleteCategory

/-- ensure_can_update_category_archival_status. -/
def ensureCanUpdateCategoryArchivalStatus (env : Env) (s : ForumState) (account_id : Nat)
    (actor : PrivilegedActor) (category_id : Nat) : Except ForumError Category :=
  match ensureCanModerateCategory env s account_id actor category_id with
  | .error e => .error e
  | .ok _ =>
      if acontains s.categoryById category_id = false then .error .CategoryDoesNotExist
      else .ok (categoryGet s category_id)

/-- ensure_can_update_category_membership_of_moderator. -/
def ensureCanUpdateCategoryMembershipOfModerator (env : Env) (s : ForumState)
    (account_id category_id : Nat) : Except ForumError Category :=
  match ensureIsForumLeadAccount env account_id with
  | .error e => .error e
  | .ok _ =>
      if acontains s.categoryById category_id = false then .error .CategoryDoesNotExist
      else
        let category := categoryGet s category_id
        match ensureMapLimits category.num_direct_moderators env.MaxModeratorsForCategory with
        | .error e => .error e
        | .ok _ => .ok category

/-- ensure_poll_is_valid: the end time may not lie in the past. -/
def ensurePollIsValid (env : Env) (poll : Poll) : Except ForumError Unit :=
  if poll.end_time < env.now then .error .PollTimeSetting else .ok ()

/-- InputValidationLengthConstraint.ensure_valid with u16 length cast. -/
def ensureValidLength (c : InputValidationLengthConstraint) (len : Nat) :
    Except ForumError Unit :=
  let length := len % 65536
  if length < c.min then .error .PollAlternativesTooShort
  else if length > c.max then .error .PollAlternativesTooLong
  else .ok ()

/-- ensure_poll_alternatives_length_is_valid. -/
def ensurePollAlternativesLengthIsValid (s : ForumState) (len : Nat) : Except ForumError Unit :=
  ensureValidLength s.pollItemsConstraint len

/-- ensure_poll_alternatives_valid. -/
def ensurePollAlternativesValid (s : ForumState) (alternatives : List PollAlternative) :
    Except ForumError Unit :=
  ensurePollAlternativesLengthIsValid s alternatives.length

/-- ensure_vote_is_valid. -/
def ensureVoteIsValid (env : Env) (thread : Thread) (index : Nat) : Except ForumError Poll :=
  match thread.poll with
  | none => .error .PollNotExist
  | some poll =>
      if poll.end_time < env.now then .error .PollCommitExpired
      else if index ≥ poll.poll_alternatives.length then .error .PollData
      else .ok poll

/-- ensure_post_exists. -/
def ensurePostExists (s : ForumState) (thread_id post_id : Nat) : Except ForumError Post :=
  match alookup s.postById (thread_id, post_id) with
  | none => .error .PostDoesNotExist
  | some post => .ok post

/-- ensure_post_is_mutable. -/
def ensurePostIsMutable (s : ForumState) (category_id thread_id post_id : Nat) :
    Except ForumError Post :=
  match ensurePostExists s thread_id post_id with
  | .error e => .error e
  | .ok post =>
      match ensureThreadIsMutable s category_id thread_id with
      | .error e => .error e
      | .ok _ => .ok post

/-- ensure_can_moderate_post. -/
def ensureCanModeratePost (env : Env) (s : ForumState) (account_id : Nat)
    (actor : PrivilegedActor) (category_id thread_id post_id : Nat) : Except ForumError Post :=
  match ensureCanModerateCategory env s account_id actor category_id with
  | .error e => .error e
  | .ok _ => ensurePostIsMutable s category_id thread_id post_id

/-- ensure_can_create_thread. -/
def ensureCanCreateThread (env : Env) (s : ForumState) (account_id forum_user_id category_id : Nat) :
    Except ForumError Category :=
  match ensureIsForumUser env account_id forum_user_id with
  | .error e => .error e
  | .ok _ =>
      match ensureCategoryIsMutable s category_id with
      | .error e => .error e
      | .ok category =>
          match ensureMapLimits category.num_direct_threads env.MaxThreadsInCategory with
          | .error e => .error e
          | .ok _ => .ok category

/-- ensure_can_add_post. -/
def ensureCanAddPost (env : Env) (s : ForumState) (account_id forum_user_id category_id thread_id : Nat) :
    Except ForumError (Category × Thread) :=
  match ensureIsForumUser env account_id forum_user_id with
  | .error e => .error e
  | .ok _ => ensureThreadIsMutable s category_id thread_id

/-- The existence loop of ensure_can_set_stickied_threads. -/
def ensureAllThreadsExist (s : ForumState) (category_id : Nat) : List Nat → Except ForumError Unit
  | [] => .ok ()
  | item :: rest =>
      match ensureThreadExists s category_id item with
      | .error e => .error e
      | .ok _ => ensureAllThreadsExist s category_id rest

/-- ensure_can_set_stickied_threads. -/
def ensureCanSetStickiedThreads (env : Env) (s : ForumState) (account_id : Nat)
    (actor : PrivilegedActor) (category_id : Nat) (stickied_ids : List Nat) :
    Except ForumError Unit :=
  match ensureCanModerateCategory env s account_id actor category_id with
  | .error e => .error e
  | .ok _ => ensureAllThreadsExist s category_id stickied_ids

/-- add_new_post: checks, then post insertion, next-id bump and the
thread's post counter; returns the new id, the post and the new state. -/
def addNewPost (env : Env) (s : ForumState) (category_id thread_id : Nat) (text : List Nat)
    (author_id : Nat) : Except ForumError (Nat × Post × ForumState) :=
  match ensureDataMigrationDone s with
  | .error e => .error e
  | .ok _ =>
      match ensureThreadIsMutable s category_id thread_id with
      | .error e => .error e
      | .ok (_, thread) =>
          match ensureMapLimits thread.num_direct_posts env.MaxPostsInThread with
          | .error e => .error e
          | .ok _ =>
              let new_post_id := s.nextPostId
              let new_post : Post :=
                { thread_id := thread_id
                  text_hash := env.calculate_hash text
                  author_id := author_id }
              let s1 := { s with
                postById := ainsert s.postById (thread_id, new_post_id) new_post
                nextPostId := s.nextPostId + 1 }
              let s2 := threadMutate s1 category_id thread_id
                (fun t => { t with num_direct_posts := t.num_direct_posts + 1 })
              .ok (new_post_id, new_post, s2)

/-- add_new_thread: checks, then the discarded initial-post insertion
attempt, thread insertion, next-id bump and the category's thread
counter; returns the new id, the thread and the new state. -/
def addNewThread (env : Env) (s : ForumState) (category_id author_id : Nat)
    (title text : List Nat) (poll : Option Poll) :
    Except ForumError (Nat × Thread × ForumState) :=
  match ensureDataMigrationDone s with
  | .error e => .error e
  | .ok _ =>
      match ensureCategoryIsMutable s category_id with
      | .error e => .error e
      | .ok _ =>
          match
            (match poll with
              | none => Except.ok ()
              | some data =>
                  match ensurePollAlternativesValid s data.poll_alternatives with
                  | .error e => .error e
                  | .ok _ => ensurePollIsValid env data) with
          | .error e => .error e
          | .ok _ =>
              let new_thread_id := s.nextThreadId
              let s1 :=
                match addNewPost env s category_id new_thread_id text author_id with
                | .error _ => s
                | .ok (_, _, s') => s'
              let new_thread : Thread :=
                { category_id := category_id
                  title_hash := env.calculate_hash title
                  author_id := author_id
                  archived := false
                  poll := poll
                  num_direct_posts := 1 }
              let s2 := { s1 with
                threadById := ainsert s1.threadById (category_id, new_thread_id) new_thread
                nextThreadId := s1.nextThreadId + 1 }
              let s3 := catMutate s2 category_id
                (fun c => { c with num_direct_threads := c.num_direct_threads + 1 })
              .ok (new_thread_id, new_thread, s3)

/-- delete_thread_inner: remove the thread, bulk-remove its posts by
thread id, decrement the category's thread counter. -/
def deleteThreadInner (s : ForumState) (category_id thread_id : Nat) : ForumState :=
  let s1 := { s with threadById := aremove s.threadById (category_id, thread_id) }
  let s2 := { s1 with postById := s1.postById.filter (fun e => e.1.1 ≠ thread_id) }
  catMutate s2 category_id (fun c => { c with num_direct_threads := c.num_direct_threads - 1 })

/-- delete_post_inner. -/
def deletePostInner (s : ForumState) (category_id thread_id post_id : Nat) : ForumState :=
  let s1 := { s with postById := aremove s.postById (thread_id, post_id) }
  threadMutate s1 category_id thread_id
    (fun t => { t with num_direct_posts := t.num_direct_posts - 1 })

/-- update_category_membership_of_moderator.  The legacy storage keys are
cleared unconditionally before the lead / existence / capacity checks. -/
def updateCategoryMembershipOfModerator (env : Env) (s : ForumState)
    (account_id moderator_id category_id : Nat) (new_value : Bool) : Outcome :=
  match ensureDataMigrationDone s with
  | .error e => ⟨.error e, s, []⟩
  | .ok _ =>
      let s1 := { s with legacyForumUserById := [] }
      match ensureCanUpdateCategoryMembershipOfModerator env s1 account_id category_id with
      | .error e => ⟨.error e, s1, []⟩
      | .ok _ =>
          if new_value then
            let s2 := { s1 with
              categoryByModerator := ainsert s1.categoryByModerator (category_id, moderator_id) () }
            let s3 := catMutate s2 category_id
              (fun c => { c with num_direct_moderators := c.num_direct_moderators + 1 })
            ⟨.ok (), s3, []⟩
          else
            let s2 := { s1 with
              categoryByModerator := aremove s1.categoryByModerator (category_id, moderator_id) }
            let s3 := catMutate s2 category_id
              (fun c => { c with num_direct_moderators := c.num_direct_moderators - 1 })
            ⟨.ok (), s3, []⟩

/-- create_category. -/
def createCategory (env : Env) (s : ForumState) (account_id : Nat)
    (parent_category_id : Option Nat) (title description : List Nat) : Outcome :=
  match ensureDataMigrationDone s with
  | .error e => ⟨.error e, s, []⟩
  | .ok _ =>
      match ensureCanCreateCategory env s account_id parent_category_id with
      | .error e => ⟨.error e, s, []⟩
      | .ok _ =>
          let next_category_id := s.nextCategoryId
          let new_category : Category :=
            { title_hash := env.calculate_hash title
              description_hash := env.calculate_hash description
              archived := false
              num_direct_subcategories := 0
              num_direct_threads := 0
              num_direct_moderators := 0
              parent_category_id := parent_category_id
              sticky_thread_ids := [] }
          let s1 := { s with
            categoryById := ainsert s.categoryById next_category_id new_category
            nextCategoryId := s.nextCategoryId + 1
            categoryCounter := s.categoryCounter + 1 }
          let s2 :=
            match parent_category_id with
            | some tmp_parent_category_id =>
                catMutate s1 tmp_parent_category_id
                  (fun c => { c with num_direct_subcategories := c.num_direct_subcategories + 1 })
            | none => s1
          ⟨.ok (), s2, [.CategoryCreated next_category_id]⟩

/-- update_category_archival_status. -/
def updateCategoryArchivalStatus (env : Env) (s : ForumState) (account_id : Nat)
    (actor : PrivilegedActor) (category_id : Nat) (new_archival_status : Bool) : Outcome :=
  match ensureDataMigrationDone s with
  | .error e => ⟨.error e, s, []⟩
  | .ok _ =>
      match ensureCanUpdateCategoryArchivalStatus env s account_id actor category_id with
      | .error e => ⟨.error e, s, []⟩
      | .ok category =>
          if new_archival_status = category.archived then
            ⟨.error .CategoryNotBeingUpdated, s, []⟩
          else
            ⟨.ok (),
              catMutate s category_id (fun c => { c with archived := new_archival_status }),
              [.CategoryUpdated category_id new_archival_status]⟩

/-- delete_category. -/
def deleteCategory (env : Env) (s : ForumState) (account_id : Nat)
    (actor : PrivilegedActor) (category_id : Nat) : Outcome :=
  match ensureDataMigrationDone s with
  | .error e => ⟨.error e, s, []⟩
  | .ok _ =>
      match ensureCanDeleteCategory env s account_id actor category_id with
      | .error e => ⟨.error e, s, []⟩
      | .ok category =>
          let s1 := { s with categoryById := aremove s.categoryById category_id }
          let s2 :=
            match category.parent_category_id with
            | some parent_category_id =>
                catMutate s1 parent_category_id
                  (fun c => { c with num_direct_subcategories := c.num_direct_subcategories - 1 })
            | none => s1
          let s3 := { s2 with categoryCounter := s2.categoryCounter - 1 }
          ⟨.ok (), s3, [.CategoryDeleted category_id]⟩

/-- create_thread. -/
def createThread (env : Env) (s : ForumState) (account_id forum_user_id category_id : Nat)
    (title text : List Nat) (poll : Option Poll) : Outcome :=
  match ensureDataMigrationDone s with
  | .error e => ⟨.error e, s, []⟩
  | .ok _ =>
      match ensureCanCreateThread env s account_id forum_user_id category_id with
      | .error e => ⟨.error e, s, []⟩
      | .ok _ =>
          match addNewThread env s category_id forum_user_id title text poll with
          | .error e => ⟨.error e, s, []⟩
          | .ok (thread_id, _, s') => ⟨.ok (), s', [.ThreadCreated thread_id]⟩

/-- edit_thread_title: the title write is keyed by the stored thread's
category_id field. -/
def editThreadTitle (env : Env) (s : ForumState) (account_id forum_user_id category_id thread_id : Nat)
    (new_title : List Nat) : Outcome :=
  match ensureDataMigrationDone s with
  | .error e => ⟨.error e, s, []⟩
  | .ok _ =>
      match ensureCanEditThreadTitle env s account_id category_id thread_id forum_user_id with
      | .error e => ⟨.error e, s, []⟩
      | .ok thread =>
          let title_hash := env.calculate_hash new_title
          let s' := threadMutate s thread.category_id thread_id
            (fun t => { t with title_hash := title_hash })
          ⟨.ok (), s', [.ThreadTitleUpdated thread_id]⟩

/-- update_thread_archival_status. -/
def updateThreadArchivalStatus (env : Env) (s : ForumState) (account_id : Nat)
    (actor : PrivilegedActor) (category_id thread_id : Nat) (new_archival_status : Bool) : Outcome :=
  match ensureDataMigrationDone s with
  | .error e => ⟨.error e, s, []⟩
  | .ok _ =>
      match ensureCanUpdateThreadArchivalStatus env s account_id actor category_id thread_id with
      | .error e => ⟨.error e, s, []⟩
      | .ok (_, thread) =>
          if new_archival_status = thread.archived then
            ⟨.error .ThreadNotBeingUpdated, s, []⟩
          else
            ⟨.ok (),
              threadMutate s thread.category_id thread_id
                (fun t => { t with archived := new_archival_status }),
              [.ThreadUpdated thread_id new_archival_status]⟩

/-- delete_thread: the removal is keyed by the stored thread's
category_id field. -/
def deleteThread (env : Env) (s : ForumState) (account_id : Nat)
    (actor : PrivilegedActor) (category_id thread_id : Nat) : Outcome :=
  match ensureDataMigrationDone s with
  | .error e => ⟨.error e, s, []⟩
  | .ok _ =>
      match ensureCanModerateThread env s account_id actor category_id thread_id with
      | .error e => ⟨.error e, s, []⟩
      | .ok thread =>
          ⟨.ok (), deleteThreadInner s thread.category_id thread_id, [.ThreadDeleted thread_id]⟩

/-- move_thread_to_category: the thread value is re-keyed unchanged, its
category_id field included. -/
def moveThreadToCategory (env : Env) (s : ForumState) (account_id : Nat)
    (actor : PrivilegedActor) (category_id thread_id new_category_id : Nat) : Outcome :=
  match ensureDataMigrationDone s with
  | .error e => ⟨.error e, s, []⟩
  | .ok _ =>
      match ensureCanMoveThread env s account_id actor category_id thread_id new_category_id with
      | .error e => ⟨.error e, s, []⟩
      | .ok thread =>
          let s1 := { s with threadById := aremove s.threadById (thread.category_id, thread_id) }
          let s2 := { s1 with threadById := ainsert s1.threadById (new_category_id, thread_id) thread }
          let s3 := catMutate s2 thread.category_id
            (fun c => { c with num_direct_threads := c.num_direct_threads - 1 })
          let s4 := catMutate s3 new_category_id
            (fun c => { c with num_direct_threads := c.num_direct_threads + 1 })
          ⟨.ok (), s4, [.ThreadMoved thread_id new_category_id]⟩

/-- The alternatives list after a vote: the enumerate-and-map of the
source, incrementing exactly the alternative at the voted index. -/
def votedAlternatives (index : Nat) : Nat → List PollAlternative → List PollAlternative
  | _, [] => []
  | old_index, old_value :: rest =>
      (if index = old_index then
        { alternative_text_hash := old_value.alternative_text_hash
          vote_count := old_value.vote_count + 1 }
      else old_value) :: votedAlternatives index (old_index + 1) rest

/-- vote_on_poll: the write is keyed by the stored thread's category_id
field (rebound over the call argument, as in the source). -/
def voteOnPoll (env : Env) (s : ForumState) (account_id forum_user_id category_id thread_id index : Nat) :
    Outcome :=
  match ensureDataMigrationDone s with
  | .error e => ⟨.error e, s, []⟩
  | .ok _ =>
      match ensureIsForumUser env account_id forum_user_id with
      | .error e => ⟨.error e, s, []⟩
      | .ok _ =>
          match ensureThreadIsMutable s category_id thread_id with
          | .error e => ⟨.error e, s, []⟩
          | .ok (_, thread) =>
              let category_id := thread.category_id
              match ensureVoteIsValid env thread index with
              | .error e => ⟨.error e, s, []⟩
              | .ok poll =>
                  let new_poll_alternatives := votedAlternatives index 0 poll.poll_alternatives
                  let s' := threadMutate s category_id thread_id
                    (fun value =>
                      { value with poll := some { poll with poll_alternatives := new_poll_alternatives } })
                  ⟨.ok (), s', [.VoteOnPoll thread_id index]⟩

/-- moderate_thread: deletion keyed by the stored thread's category_id. -/
def moderateThread (env : Env) (s : ForumState) (account_id : Nat)
    (actor : PrivilegedActor) (category_id thread_id : Nat) (rationale : List Nat) : Outcome :=
  match ensureDataMigrationDone s with
  | .error e => ⟨.error e, s, []⟩
  | .ok _ =>
      match ensureCanModerateThread env s account_id actor category_id thread_id with
      | .error e => ⟨.error e, s, []⟩
      | .ok thread =>
          ⟨.ok (), deleteThreadInner s thread.category_id thread_id,
            [.ThreadModerated thread_id rationale]⟩

/-- add_post. -/
def addPost (env : Env) (s : ForumState) (account_id forum_user_id category_id thread_id : Nat)
    (text : List Nat) : Outcome :=
  match ensureDataMigrationDone s with
  | .error e => ⟨.error e, s, []⟩
  | .ok _ =>
      match ensureCanAddPost env s account_id forum_user_id category_id thread_id with
      | .error e => ⟨.error e, s, []⟩
      | .ok (_, thread) =>
          match addNewPost env s thread.category_id thread_id text forum_user_id with
          | .error e => ⟨.error e, s, []⟩
          | .ok (post_id, _, s') => ⟨.ok (), s', [.PostAdded post_id]⟩

/-- react_post: checks only, no storage mutation. -/
def reactPost (env : Env) (s : ForumState)
    (account_id forum_user_id category_id thread_id post_id react : Nat) : Outcome :=
  match ensureDataMigrationDone s with
  | .error e => ⟨.error e, s, []⟩
  | .ok _ =>
      match ensureIsForumUser env account_id forum_user_id with
      | .error e => ⟨.error e, s, []⟩
      | .ok _ =>
          match ensurePostIsMutable s category_id thread_id post_id with
          | .error e => ⟨.error e, s, []⟩
          | .ok _ => ⟨.ok (), s, [.PostReacted forum_user_id post_id react]⟩

/-- edit_post_text: the write is keyed by the stored post's thread_id. -/
def editPostText (env : Env) (s : ForumState)
    (account_id forum_user_id category_id thread_id post_id : Nat) (new_text : List Nat) : Outcome :=
  match ensureDataMigrationDone s with
  | .error e => ⟨.error e, s, []⟩
  | .ok _ =>
      match ensureIsForumUser env account_id forum_user_id with
      | .error e => ⟨.error e, s, []⟩
      | .ok _ =>
          match ensurePostIsMutable s category_id thread_id post_id with
          | .error e => ⟨.error e, s, []⟩
          | .ok post =>
              if post.author_id ≠ forum_user_id then
                ⟨.error .AccountDoesNotMatchPostAuthor, s, []⟩
              else
                let text_hash := env.calculate_hash new_text
                let s' := postMutate s post.thread_id post_id
                  (fun p => { p with text_hash := text_hash })
                ⟨.ok (), s', [.PostTextUpdated post_id]⟩

/-- moderate_post. -/
def moderatePost (env : Env) (s : ForumState) (account_id : Nat)
    (actor : PrivilegedActor) (category_id thread_id post_id : Nat) (rationale : List Nat) : Outcome :=
  match ensureDataMigrationDone s with
  | .error e => ⟨.error e, s, []⟩
  | .ok _ =>
      match ensureCanModeratePost env s account_id actor category_id thread_id post_id with
      | .error e => ⟨.error e, s, []⟩
      | .ok _ =>
          ⟨.ok (), deletePostInner s category_id thread_id post_id,
            [.PostModerated post_id rationale]⟩

/-- set_stickied_threads. -/
def setStickiedThreads (env : Env) (s : ForumState) (account_id : Nat)
    (actor : PrivilegedActor) (category_id : Nat) (stickied_ids : List Nat) : Outcome :=
  match ensureDataMigrationDone s with
  | .error e => ⟨.error e, s, []⟩
  | .ok _ =>
      match ensureCanSetStickiedThreads env s account_id actor category_id stickied_ids with
      | .error e => ⟨.error e, s, []⟩
      | .ok _ =>
          ⟨.ok (),
            catMutate s category_id (fun c => { c with sticky_thread_ids := stickied_ids }),
            [.CategoryStickyThreadUpdate category_id stickied_ids]⟩

/-- The Call enum: one constructor per dispatchable. -/
inductive Call where
  | updateCategoryMembershipOfModerator (moderator_id category_id : Nat) (new_value : Bool)
  | createCategory (parent_category_id : Option Nat) (title description : List Nat)
  | updateCategoryArchivalStatus (actor : PrivilegedActor) (category_id : Nat) (new_archival_status : Bool)
  | deleteCategory (actor : PrivilegedActor) (category_id : Nat)
  | createThread (forum_user_id category_id : Nat) (title text : List Nat) (poll : Option Poll)
  | editThreadTitle (forum_user_id category_id thread_id : Nat) (new_title : List Nat)
  | updateThreadArchivalStatus (actor : PrivilegedActor) (category_id thread_id : Nat) (new_archival_status : Bool)
  | deleteThread (actor : PrivilegedActor) (category_id thread_id : Nat)
  | moveThreadToCategory (actor : PrivilegedActor) (category_id thread_id new_category_id : Nat)
  | voteOnPoll (forum_user_id category_id thread_id index : Nat)
  | moderateThread (actor : PrivilegedActor) (category_id thread_id : Nat) (rationale : List Nat)
  | addPost (forum_user_id category_id thread_id : Nat) (text : List Nat)
  | reactPost (forum_user_id category_id thread_id post_id react : Nat)
  | editPostText (forum_user_id category_id thread_id post_id : Nat) (new_text : List Nat)
  | moderatePost (actor : PrivilegedActor) (category_id thread_id post_id : Nat) (rationale : List Nat)
  | setStickiedThreads (actor : PrivilegedActor) (category_id : Nat) (stickied_ids : List Nat)
deriving DecidableEq

/-- Dispatch one signed call against the current state. -/
def dispatch (env : Env) (s : ForumState) (account_id : Nat) : Call → Outcome
  | .updateCategoryMembershipOfModerator moderator_id category_id new_value =>
      updateCategoryMembershipOfModerator env s account_id moderator_id category_id new_value
  | .createCategory parent_category_id title description =>
      createCategory env s account_id parent_category_id title description
  | .updateCategoryArchivalStatus actor category_id new_archival_status =>
      updateCategoryArchivalStatus env s account_id actor category_id new_archival_status
  | .deleteCategory actor category_id =>
      deleteCategory env s account_id actor category_id
  | .createThread forum_user_id category_id title text poll =>
      createThread env s account_id forum_user_id category_id title text poll
  | .editThreadTitle forum_user_id category_id thread_id new_title =>
      editThreadTitle env s account_id forum_user_id category_id thread_id new_title
  | .updateThreadArchivalStatus actor category_id thread_id new_archival_status =>
      updateThreadArchivalStatus env s account_id actor category_id thread_id new_archival_status
  | .deleteThread actor category_id thread_id =>
      deleteThread env s account_id actor category_id thread_id
  | .moveThreadToCategory actor category_id thread_id new_category_id =>
      moveThreadToCategory env s account_id actor category_id thread_id new_category_id
  | .voteOnPoll forum_user_id category_id thread_id index =>
      voteOnPoll env s account_id forum_user_id category_id thread_id index
  | .moderateThread actor category_id thread_id rationale =>
      moderateThread env s account_id actor category_id thread_id rationale
  | .addPost forum_user_id category_id thread_id text =>
      addPost env s account_id forum_user_id category_id thread_id text
  | .reactPost forum_user_id category_id thread_id post_id react =>
      reactPost env s account_id forum_user_id category_id thread_id post_id react
  | .editPostText forum_user_id category_id thread_id post_id new_text =>
      editPostText env s account_id forum_user_id category_id thread_id post_id new_text
  | .moderatePost actor category_id thread_id post_id rationale =>
      moderatePost env s account_id actor category_id thread_id post_id rationale
  | .setStickiedThreads actor category_id stickied_ids =>
      setStickiedThreads env s account_id actor category_id stickied_ids

/-- Number of posts stored under a thread id. -/
def countPostsOf (s : ForumState) (thread_id : Nat) : Nat :=
  (s.postById.filter (fun e => e.1.1 == thread_id)).length

/-- Number of moderator assignments stored under a category id. -/
def countModeratorsOf (s : ForumState) (category_id : Nat) : Nat :=
  (s.categoryByModerator.filter (fun e => e.1.1 == category_id)).length

/-!  Concrete fixtures used by the closed theorems and witnesses.
Account 1 is the lead, account 2 is forum member 20, account 3 is
moderator 7. -/

def exEnv : Env :=
  { MaxCategoryDepth := 3
    MaxSubcategories := 10
    MaxThreadsInCategory := 10
    MaxPostsInThread := 10
    MaxModeratorsForCategory := 10
    MaxCategories := 10
    is_lead := fun a => a == 1
    is_forum_member := fun a u => a == 2 && u == 20
    is_moderator := fun a m => a == 3 && m == 7
    calculate_hash := fun l => l.length
    now := 100 }

/-- The fixture environment with the category depth limit set to one. -/
def exEnvDepth1 : Env := { exEnv with MaxCategoryDepth := 1 }

/-- One unarchived root category (id 0), migration done, next thread id 5,
next post id 9. -/
def exBaseState : ForumState :=
  { categoryById := [(0, defaultCategory)]
    nextCategoryId := 1
    categoryCounter := 1
    threadById := []
    nextThreadId := 5
    postById := []
    nextPostId := 9
    categoryByModerator := []
    pollItemsConstraint := { min := 1, max_min_diff := 10 }
    dataMigrationDone := true
    legacyForumUserById := [] }

/-- Moderator 7 assigned to category 0, counter consistent at one. -/
def exStateModerator : ForumState :=
  { exBaseState with
    categoryById := [(0, { defaultCategory with num_direct_moderators := 1 })]
    categoryByModerator := [((0, 7), ())] }

/-- A state still holding one key under the legacy storage area. -/
def exStateLegacy : ForumState := { exBaseState with legacyForumUserById := [3] }

/-- A two-alternative poll ending exactly at the fixture clock value. -/
def exPoll : Poll := ⟨9, 100, [⟨0, 0⟩, ⟨1, 0⟩]⟩

/-- An archived thread carrying a live poll, inside an unarchived root. -/
def exStateArchivedPollThread : ForumState :=
  { exBaseState with threadById := [((0, 5), (⟨0, 0, 20, true, some exPoll, 1⟩ : Thread))] }

/-- An unarchived thread carrying a live poll, inside an unarchived root. -/
def exStatePollThread : ForumState :=
  { exBaseState with threadById := [((0, 5), (⟨0, 0, 20, false, some exPoll, 1⟩ : Thread))] }

/-- Two root categories; thread 5 lives in category 0. -/
def exStateTwoCategories : ForumState :=
  { exBaseState with
    categoryById := [(0, { defaultCategory with num_direct_threads := 1 }), (1, defaultCategory)]
    threadById := [((0, 5), (⟨3, 0, 20, false, none, 1⟩ : Thread))] }

/-- Root 0 with empty child 1; moderator 7 assigned to child 1 itself. -/
def exStateChildModerator : ForumState :=
  { exBaseState with
    categoryById :=
      [(0, defaultCategory),
        (1, { defaultCategory with parent_category_id := some 0, num_direct_moderators := 1 })]
    categoryByModerator := [((1, 7), ())] }

/-- Root 0 with empty child 1; moderator 7 assigned to the root instead. -/
def exStateParentModerator : ForumState :=
  { exStateChildModerator with categoryByModerator := [((0, 7), ())] }

/-- A single archived root category. -/
def exStateArchivedRoot : ForumState :=
  { exBaseState with categoryById := [(0, { defaultCategory with archived := true })] }

/-- An archived poll-free thread inside an unarchived root. -/
def exStateArchivedThread : ForumState :=
  { exBaseState with threadById := [((0, 5), (⟨0, 0, 20, true, none, 1⟩ : Thread))] }

/-!  Lemmas about the association-list primitives. -/

theorem alookup_ainsert_self {K V : Type} [DecidableEq K] (l : List (K × V)) (k : K) (v : V) :
    alookup (ainsert l k v) k = some v := by
  induction l with
  | nil => simp [ainsert, alookup]
  | cons hd tl ih =>
      obtain ⟨k', v'⟩ := hd
      by_cases h : k = k'
      · subst h
        simp [ainsert, alookup]
      · simp [ainsert, alookup, h, ih]

theorem alookup_ainsert_ne {K V : Type} [DecidableEq K] (l : List (K × V)) (k k' : K) (v : V)
    (h : k' ≠ k) : alookup (ainsert l k v) k' = alookup l k' := by
  induction l with
  | nil => simp [ainsert, alookup, h]
  | cons hd tl ih =>
      obtain ⟨k₀, v₀⟩ := hd
      by_cases hk : k = k₀
      · subst hk
        simp [ainsert, alookup, h]
      · by_cases hk' : k' = k₀
        · subst hk'
          simp [ainsert, alookup, hk]
        · simp [ainsert, alookup, hk, hk', ih]

theorem alookup_aremove_self {K V : Type} [DecidableEq K] (l : List (K × V)) (k : K) :
    alookup (aremove l k) k = none := by
  induction l with
  | nil => simp [aremove, alookup]
  | cons hd tl ih =>
      obtain ⟨k₀, v₀⟩ := hd
      by_cases hk : k = k₀
      · subst hk
        simp [aremove, alookup, ih]
      · simp [aremove, alookup, hk, ih]

theorem alookup_aremove_ne {K V : Type} [DecidableEq K] (l : List (K × V)) (k k' : K)
    (h : k' ≠ k) : alookup (aremove l k) k' = alookup l k' := by
  induction l with
  | nil => simp [aremove, alookup]
  | cons hd tl ih =>
      obtain ⟨k₀, v₀⟩ := hd
      by_cases hk : k = k₀
      · subst hk
        simp [aremove, alookup, h, ih]
      · by_cases hk' : k' = k₀
        · subst hk'
          simp [aremove, alookup, hk]
        · simp [aremove, alookup, hk, hk', ih]

theorem acontains_of_lookup_some {K V : Type} [DecidableEq K] {l : List (K × V)} {k : K} {v : V}
    (h : alookup l k = some v) : acontains l k = true := by
  simp [acontains, h]

theorem buildCategoryTreePath_headD (s : ForumState) (category_id : Nat) :
    (buildCategoryTreePath s category_id).headD (0, defaultCategory) =
      (category_id, categoryGet s category_id) := by
  simp [buildCategoryTreePath, pathFuel, buildCategoryTreePathAux]

theorem buildCategoryTreePath_head (s : ForumState) (category_id : Nat) :
    (buildCategoryTreePath s category_id).head?.getD (0, defaultCategory) =
      (category_id, categoryGet s category_id) := by
  simp [buildCategoryTreePath, pathFuel, buildCategoryTreePathAux]

theorem check_moderator_ok_iff (s : ForumState) (moderator_id : Nat)
    (path : List (Nat × Category)) :
    check_moderator s path moderator_id = .ok () ↔
      ∃ item ∈ path, acontains s.categoryByModerator (item.1, moderator_id) = true := by
  induction path with
  | nil => simp [check_moderator]
  | cons hd tl ih =>
      by_cases h : acontains s.categoryByModerator (hd.1, moderator_id) = true
      · simp [check_moderator, h]
      · simp only [Bool.not_eq_true] at h
        simp [check_moderator, h, ih]

theorem check_moderator_ok_or_error (s : ForumState) (moderator_id : Nat)
    (path : List (Nat × Category)) :
    check_moderator s path moderator_id = .ok () ∨
    check_moderator s path moderator_id = .error .ModeratorCantUpdateCategory := by
  induction path with
  | nil => right; rfl
  | cons hd tl ih =>
      by_cases h : acontains s.categoryByModerator (hd.1, moderator_id) = true
      · left; simp [check_moderator, h]
      · simp only [Bool.not_eq_true] at h
        simpa [check_moderator, h] using ih

theorem votedAlternatives_length (index start : Nat) (alts : List PollAlternative) :
    (votedAlternatives index start alts).length = alts.length := by
  induction alts generalizing start with
  | nil => simp [votedAlternatives]
  | cons a rest ih => simp only [votedAlternatives, List.length_cons, ih]

theorem votedAlternatives_getElem (index : Nat) (alts : List PollAlternative) :
    ∀ start j, (votedAlternatives index start alts)[j]? =
      (alts[j]?).map (fun a =>
        if index = start + j then { a with vote_count := a.vote_count + 1 } else a) := by
  induction alts with
  | nil =>
      intro start j
      simp [votedAlternatives]
  | cons a rest ih =>
      intro start j
      cases j with
      | zero => simp [votedAlternatives]
      | succ j' =>
          simp only [votedAlternatives, List.getElem?_cons_succ, ih (start + 1) j']
          have harith : start + 1 + j' = start + (j' + 1) := by omega
          rw [harith]

theorem buildCategoryTreePathAux_eq_of_categoryById (s₁ s₂ : ForumState)
    (h : s₁.categoryById = s₂.categoryById) :
    ∀ fuel category_id, buildCategoryTreePathAux s₁ fuel category_id =
      buildCategoryTreePathAux s₂ fuel category_id := by
  intro fuel
  induction fuel with
  | zero => intro c; rfl
  | succ n ih =>
      intro c
      have hg : categoryGet s₁ c = categoryGet s₂ c := by simp [categoryGet, h]
      simp only [buildCategoryTreePathAux, hg]
      cases hp : (categoryGet s₂ c).parent_category_id with
      | none => simp [hp]
      | some p => simp [hp, ih]

theorem buildCategoryTreePath_eq_of_categoryById (s₁ s₂ : ForumState)
    (h : s₁.categoryById = s₂.categoryById) (category_id : Nat) :
    buildCategoryTreePath s₁ category_id = buildCategoryTreePath s₂ category_id := by
  unfold buildCategoryTreePath pathFuel
  rw [h]
  exact buildCategoryTreePathAux_eq_of_categoryById s₁ s₂ h _ category_id

/-- A successful vote: full characterization of the outcome. -/
theorem voteOnPoll_ok_effect (env : Env) (s : ForumState)
    (account_id forum_user_id category_id thread_id index : Nat) (th : Thread) (p : Poll)
    (hmig : s.dataMigrationDone = true)
    (hmem : env.is_forum_member account_id forum_user_id = true)
    (hth : alookup s.threadById (category_id, thread_id) = some th)
    (harch : th.archived = false)
    (hcid : th.category_id = category_id)
    (hpath : (buildCategoryTreePath s category_id).any (fun item => item.2.archived) = false)
    (hpoll : th.poll = some p)
    (hexp : ¬ p.end_time < env.now)
    (hidx : index < p.poll_alternatives.length) :
    voteOnPoll env s account_id forum_user_id category_id thread_id index =
      ⟨.ok (),
        { s with threadById := (ainsert s.threadById (category_id, thread_id) { th with poll := some { p with poll_alternatives := votedAlternatives index 0 p.poll_alternatives } }) },
        [.VoteOnPoll thread_id index]⟩ := by
  have hidx' : ¬ index ≥ p.poll_alternatives.length := Nat.not_le.mpr hidx
  simp [voteOnPoll, ensureDataMigrationDone, hmig, ensureIsForumUser, hmem,
    ensureThreadIsMutable, ensureThreadExists, hth, harch, ensureCategoryIsMutable,
    ensureCanMutateInPathLeaf, hpath, ensureVoteIsValid, hpoll, hexp, hidx',
    threadMutate, threadGet, hcid]

theorem categoryGet_catMutate_self (s : ForumState) (category_id : Nat) (f : Category → Category) :
    categoryGet (catMutate s category_id f) category_id = f (categoryGet s category_id) := by
  simp [categoryGet, catMutate, alookup_ainsert_self]

theorem categoryGet_catMutate_ne (s : ForumState) (c c' : Nat) (f : Category → Category)
    (h : c' ≠ c) : categoryGet (catMutate s c f) c' = categoryGet s c' := by
  simp [categoryGet, catMutate, alookup_ainsert_ne _ _ _ _ h]

/-!  Inversion lemmas: what a successful validation tells about the
state it was run against. -/

theorem ensureThreadExists_ok {s : ForumState} {category_id thread_id : Nat} {t : Thread}
    (h : ensureThreadExists s category_id thread_id = .ok t) :
    alookup s.threadById (category_id, thread_id) = some t := by
  unfold ensureThreadExists at h
  cases hl : alookup s.threadById (category_id, thread_id) with
  | none => simp [hl] at h
  | some thread =>
      simp [hl] at h
      subst h
      rfl

theorem ensureCanModerateThread_ok {env : Env} {s : ForumState} {account_id : Nat}
    {actor : PrivilegedActor} {category_id thread_id : Nat} {t : Thread}
    (h : ensureCanModerateThread env s account_id actor category_id thread_id = .ok t) :
    alookup s.threadById (category_id, thread_id) = some t := by
  unfold ensureCanModerateThread at h
  cases hc : ensureCanModerateCategory env s account_id actor category_id with
  | error e => simp [hc] at h
  | ok u =>
      simp [hc] at h
      exact ensureThreadExists_ok h

theorem ensureCanMoveThread_ok {env : Env} {s : ForumState} {account_id : Nat}
    {actor : PrivilegedActor} {category_id thread_id new_category_id : Nat} {t : Thread}
    (h : ensureCanMoveThread env s account_id actor category_id thread_id new_category_id = .ok t) :
    alookup s.threadById (category_id, thread_id) = some t ∧
      category_id ≠ new_category_id := by
  by_cases hne : category_id = new_category_id
  · unfold ensureCanMoveThread at h
    rw [if_pos hne] at h
    simp at h
  · unfold ensureCanMoveThread at h
    rw [if_neg hne] at h
    cases hm : ensureCanModerateThread env s account_id actor category_id thread_id with
    | error e => simp [hm] at h
    | ok thread =>
        simp [hm] at h
        cases hp : ensureCanModerateCategoryPath s actor new_category_id with
        | error e => simp [hp] at h
        | ok c =>
            simp [hp] at h
            subst h
            exact ⟨ensureCanModerateThread_ok hm, hne⟩

theorem ensureThreadIsMutable_ok {s : ForumState} {category_id thread_id : Nat}
    {c : Category} {t : Thread}
    (h : ensureThreadIsMutable s category_id thread_id = .ok (c, t)) :
    alookup s.threadById (category_id, thread_id) = some t := by
  unfold ensureThreadIsMutable at h
  cases hl : ensureThreadExists s category_id thread_id with
  | error e => simp [hl] at h
  | ok thread =>
      simp [hl] at h
      by_cases ha : thread.archived
      · simp [ha] at h
      · simp [ha] at h
        cases hm : ensureCategoryIsMutable s category_id with
        | error e => simp [hm] at h
        | ok cat =>
            simp [hm] at h
            obtain ⟨h1, h2⟩ := h
            rw [ensureThreadExists_ok hl, h2]

theorem ensureIsThreadAuthor_ok {s : ForumState} {category_id thread_id forum_user_id : Nat}
    {t : Thread}
    (h : ensureIsThreadAuthor s category_id thread_id forum_user_id = .ok t) :
    alookup s.threadById (category_id, thread_id) = some t := by
  unfold ensureIsThreadAuthor at h
  cases hm : ensureThreadIsMutable s category_id thread_id with
  | error e => simp [hm] at h
  | ok ct =>
      obtain ⟨c, th0⟩ := ct
      simp [hm] at h
      by_cases ha : th0.author_id = forum_user_id
      · simp [ha] at h
        subst h
        exact ensureThreadIsMutable_ok hm
      · simp [ha] at h

theorem ensureCanEditThreadTitle_ok {env : Env} {s : ForumState}
    {account_id category_id thread_id forum_user_id : Nat} {t : Thread}
    (h : ensureCanEditThreadTitle env s account_id category_id thread_id forum_user_id = .ok t) :
    alookup s.threadById (category_id, thread_id) = some t := by
  unfold ensureCanEditThreadTitle at h
  cases hu : ensureIsForumUser env account_id forum_user_id with
  | error e => simp [hu] at h
  | ok u =>
      simp [hu] at h
      exact ensureIsThreadAuthor_ok h

/-- A successful move: full characterization of the outcome. -/
theorem moveThreadToCategory_ok_effect (env : Env) (s : ForumState) (account_id : Nat)
    (actor : PrivilegedActor) (category_id thread_id new_category_id : Nat) (th : Thread)
    (hth : alookup s.threadById (category_id, thread_id) = some th)
    (hcid : th.category_id = category_id)
    (hok : (moveThreadToCategory env s account_id actor category_id thread_id new_category_id).result = .ok ()) :
    moveThreadToCategory env s account_id actor category_id thread_id new_category_id =
      ⟨.ok (),
        catMutate (catMutate { s with threadById := (ainsert (aremove s.threadById (category_id, thread_id)) (new_category_id, thread_id) th) } category_id (fun c => { c with num_direct_threads := c.num_direct_threads - 1 })) new_category_id (fun c => { c with num_direct_threads := c.num_direct_threads + 1 }),
        [.ThreadMoved thread_id new_category_id]⟩ := by
  cases hmg : ensureDataMigrationDone s with
  | error e1 => simp [moveThreadToCategory, hmg] at hok
  | ok u =>
      cases hmv : ensureCanMoveThread env s account_id actor category_id thread_id new_category_id with
      | error e2 => simp [moveThreadToCategory, hmg, hmv] at hok
      | ok t =>
          have hlk := (ensureCanMoveThread_ok hmv).1
          have ht : t = th := by
            rw [hlk] at hth
            exact Option.some.inj hth
          subst ht
          simp [moveThreadToCategory, hmg, hmv, hcid]

/-!  Error-frame lemmas: a failed call deposits no event and leaves the
state unchanged, except for the legacy-key clearing of
update_category_membership_of_moderator. -/

theorem createCategory_error_frame (env : Env) (s : ForumState) (account_id : Nat)
    (parent_category_id : Option Nat) (title description : List Nat) (e : ForumError)
    (h : (createCategory env s account_id parent_category_id title description).result = .error e) :
    (createCategory env s account_id parent_category_id title description).state = s ∧
    (createCategory env s account_id parent_category_id title description).events = [] := by
  unfold createCategory at h ⊢
  repeat' split at h
  all_goals simp_all

theorem updateCategoryArchivalStatus_error_frame (env : Env) (s : ForumState)
    (account_id : Nat) (actor : PrivilegedActor) (category_id : Nat) (b : Bool) (e : ForumError)
    (h : (updateCategoryArchivalStatus env s account_id actor category_id b).result = .error e) :
    (updateCategoryArchivalStatus env s account_id actor category_id b).state = s ∧
    (updateCategoryArchivalStatus env s account_id actor category_id b).events = [] := by
  unfold updateCategoryArchivalStatus at h ⊢
  repeat' split at h
  all_goals simp_all

theorem deleteCategory_error_frame (env : Env) (s : ForumState) (account_id : Nat)
    (actor : PrivilegedActor) (category_id : Nat) (e : ForumError)
    (h : (deleteCategory env s account_id actor category_id).result = .error e) :
    (deleteCategory env s account_id actor category_id).state = s ∧
    (deleteCategory env s account_id actor category_id).events = [] := by
  unfold deleteCategory at h ⊢
  repeat' split at h
  all_goals simp_all

theorem createThread_error_frame (env : Env) (s : ForumState)
    (account_id forum_user_id category_id : Nat) (title text : List Nat) (poll : Option Poll)
    (e : ForumError)
    (h : (createThread env s account_id forum_user_id category_id title text poll).result = .error e) :
    (createThread env s account_id forum_user_id category_id title text poll).state = s ∧
    (createThread env s account_id forum_user_id category_id title text poll).events = [] := by
  unfold createThread at h ⊢
  repeat' split at h
  all_goals simp_all

theorem editThreadTitle_error_frame (env : Env) (s : ForumState)
    (account_id forum_user_id category_id thread_id : Nat) (new_title : List Nat) (e : ForumError)
    (h : (editThreadTitle env s account_id forum_user_id category_id thread_id new_title).result = .error e) :
    (editThreadTitle env s account_id forum_user_id category_id thread_id new_title).state = s ∧
    (editThreadTitle env s account_id forum_user_id category_id thread_id new_title).events = [] := by
  unfold editThreadTitle at h ⊢
  repeat' split at h
  all_goals simp_all

theorem updateThreadArchivalStatus_error_frame (env : Env) (s : ForumState) (account_id : Nat)
    (actor : PrivilegedActor) (category_id thread_id : Nat) (b : Bool) (e : ForumError)
    (h : (updateThreadArchivalStatus env s account_id actor category_id thread_id b).result = .error e) :
    (updateThreadArchivalStatus env s account_id actor category_id thread_id b).state = s ∧
    (updateThreadArchivalStatus env s account_id actor category_id thread_id b).events = [] := by
  unfold updateThreadArchivalStatus at h ⊢
  repeat' split at h
  all_goals simp_all

theorem deleteThread_error_frame (env : Env) (s : ForumState) (account_id : Nat)
    (actor : PrivilegedActor) (category_id thread_id : Nat) (e : ForumError)
    (h : (deleteThread env s account_id actor category_id thread_id).result = .error e) :
    (deleteThread env s account_id actor category_id thread_id).state = s ∧
    (deleteThread env s account_id actor category_id thread_id).events = [] := by
  unfold deleteThread at h ⊢
  repeat' split at h
  all_goals simp_all

theorem moveThreadToCategory_error_frame (env : Env) (s : ForumState) (account_id : Nat)
    (actor : PrivilegedActor) (category_id thread_id new_category_id : Nat) (e : ForumError)
    (h : (moveThreadToCategory env s account_id actor category_id thread_id new_category_id).result = .error e) :
    (moveThreadToCategory env s account_id actor category_id thread_id new_category_id).state = s ∧
    (moveThreadToCategory env s account_id actor category_id thread_id new_category_id).events = [] := by
  unfold moveThreadToCategory at h ⊢
  repeat' split at h
  all_goals simp_all

theorem voteOnPoll_error_frame (env : Env) (s : ForumState)
    (account_id forum_user_id category_id thread_id index : Nat) (e : ForumError)
    (h : (voteOnPoll env s account_id forum_user_id category_id thread_id index).result = .error e) :
    (voteOnPoll env s account_id forum_user_id category_id thread_id index).state = s ∧
    (voteOnPoll env s account_id forum_user_id category_id thread_id index).events = [] := by
  unfold voteOnPoll at h ⊢
  repeat' split at h
  all_goals simp_all

theorem moderateThread_error_frame (env : Env) (s : ForumState) (account_id : Nat)
    (actor : PrivilegedActor) (category_id thread_id : Nat) (rationale : List Nat) (e : ForumError)
    (h : (moderateThread env s account_id actor category_id thread_id rationale).result = .error e) :
    (moderateThread env s account_id actor category_id thread_id rationale).state = s ∧
    (moderateThread env s account_id actor category_id thread_id rationale).events = [] := by
  unfold moderateThread at h ⊢
  repeat' split at h
  all_goals simp_all

theorem addPost_error_frame (env : Env) (s : ForumState)
    (account_id forum_user_id category_id thread_id : Nat) (text : List Nat) (e : ForumError)
    (h : (addPost env s account_id forum_user_id category_id thread_id text).result = .error e) :
    (addPost env s account_id forum_user_id category_id thread_id text).state = s ∧
    (addPost env s account_id forum_user_id category_id thread_id text).events = [] := by
  unfold addPost at h ⊢
  repeat' split at h
  all_goals simp_all

theorem reactPost_error_frame (env : Env) (s : ForumState)
    (account_id forum_user_id category_id thread_id post_id react : Nat) (e : ForumError)
    (h : (reactPost env s account_id forum_user_id category_id thread_id post_id react).result = .error e) :
    (reactPost env s account_id forum_user_id category_id thread_id post_id react).state = s ∧
    (reactPost env s account_id forum_user_id category_id thread_id post_id react).events = [] := by
  unfold reactPost at h ⊢
  repeat' split at h
  all_goals simp_all

theorem editPostText_error_frame (env : Env) (s : ForumState)
    (account_id forum_user_id category_id thread_id post_id : Nat) (new_text : List Nat) (e : ForumError)
    (h : (editPostText env s account_id forum_user_id category_id thread_id post_id new_text).result = .error e) :
    (editPostText env s account_id forum_user_id category_id thread_id post_id new_text).state = s ∧
    (editPostText env s account_id forum_user_id category_id thread_id post_id new_text).events = [] := by
  unfold editPostText at h ⊢
  repeat' split at h
  all_goals simp_all

theorem moderatePost_error_frame (env : Env) (s : ForumState) (account_id : Nat)
    (actor : PrivilegedActor) (category_id thread_id post_id : Nat) (rationale : List Nat) (e : ForumError)
    (h : (moderatePost env s account_id actor category_id thread_id post_id rationale).result = .error e) :
    (moderatePost env s account_id actor category_id thread_id post_id rationale).state = s ∧
    (moderatePost env s account_id actor category_id thread_id post_id rationale).events = [] := by
  unfold moderatePost at h ⊢
  repeat' split at h
  all_goals simp_all

theorem setStickiedThreads_error_frame (env : Env) (s : ForumState) (account_id : Nat)
    (actor : PrivilegedActor) (category_id : Nat) (stickied_ids : List Nat) (e : ForumError)
    (h : (setStickiedThreads env s account_id actor category_id stickied_ids).result = .error e) :
    (setStickiedThreads env s account_id actor category_id stickied_ids).state = s ∧
    (setStickiedThreads env s account_id actor category_id stickied_ids).events = [] := by
  unfold setStickiedThreads at h ⊢
  repeat' split at h
  all_goals simp_all

theorem updateCategoryMembershipOfModerator_error_frame (env : Env) (s : ForumState)
    (account_id moderator_id category_id : Nat) (new_value : Bool) (e : ForumError)
    (h : (updateCategoryMembershipOfModerator env s account_id moderator_id category_id new_value).result = .error e) :
    (updateCategoryMembershipOfModerator env s account_id moderator_id category_id new_value).events = [] ∧
    ((updateCategoryMembershipOfModerator env s account_id moderator_id category_id new_value).state = s ∨
      (updateCategoryMembershipOfModerator env s account_id moderator_id category_id new_value).state =
        { s with legacyForumUserById := [] }) := by
  unfold updateCategoryMembershipOfModerator at h ⊢
  cases hm : ensureDataMigrationDone s with
  | error e1 => simp [hm]
  | ok u =>
      cases hc : ensureCanUpdateCategoryMembershipOfModerator env
          { s with legacyForumUserById := [] } account_id category_id with
      | error e2 => simp [hm, hc]
      | ok cat => cases new_value <;> simp [hm, hc] at h

/-- C1.  After a successful create_thread the new thread records
num_direct_posts = 1, yet no post at all is stored under the new thread
id and the post-id counter is untouched: the internal add_new_post call
runs before the thread itself is stored, fails its thread-existence
check, and its discarded result means the initial post never exists.
This refutes the claimed invariant that thread creation atomically
creates the thread and its first post. -/
theorem c1_create_thread_lacks_first_post :
    (createThread exEnv exBaseState 2 20 0 [1] [2] none).result = .ok () ∧
    alookup (createThread exEnv exBaseState 2 20 0 [1] [2] none).state.threadById (0, 5) =
      some (⟨1, 0, 20, false, none, 1⟩ : Thread) ∧
    (createThread exEnv exBaseState 2 20 0 [1] [2] none).state.postById = [] ∧
    countPostsOf (createThread exEnv exBaseState 2 20 0 [1] [2] none).state 5 = 0 ∧
    (createThread exEnv exBaseState 2 20 0 [1] [2] none).state.nextPostId =
      exBaseState.nextPostId := by
  decide

/-- C2.  Starting from a consistent state in which moderator 7 is already
assigned to category 0 and the counter equals the assignment count,
a successful update_category_membership_of_moderator with new_value =
true (equal to the current assignment status) re-inserts the existing
assignment and increments num_direct_moderators to 2 while the map still
holds a single entry, breaking the claimed counter invariant. -/
theorem c2_redundant_moderator_update_breaks_counter :
    countModeratorsOf exStateModerator 0 = 1 ∧
    (categoryGet exStateModerator 0).num_direct_moderators = 1 ∧
    (updateCategoryMembershipOfModerator exEnv exStateModerator 1 7 0 true).result = .ok () ∧
    countModeratorsOf (updateCategoryMembershipOfModerator exEnv exStateModerator 1 7 0 true).state 0 = 1 ∧
    (categoryGet (updateCategoryMembershipOfModerator exEnv exStateModerator 1 7 0 true).state 0).num_direct_moderators = 2 := by
  decide

/-- C10.  A thread archived inside an unarchived category can never be
un-archived: update_thread_archival_status with new status false runs
the thread-mutability check first, which rejects the archived thread
with ThreadImmutable, so the claimed reversibility of thread archival
fails and the call leaves the state unchanged. -/
theorem c10_unarchive_thread_rejected :
    (alookup exStateArchivedThread.threadById (0, 5)).map Thread.archived = some true ∧
    (categoryGet exStateArchivedThread 0).archived = false ∧
    (updateThreadArchivalStatus exEnv exStateArchivedThread 1 .Lead 0 5 false).result =
      .error .ThreadImmutable ∧
    (updateThreadArchivalStatus exEnv exStateArchivedThread 1 .Lead 0 5 false).state =
      exStateArchivedThread := by
  decide

/-- C3 counterexample.  update_category_membership_of_moderator clears
the legacy storage keys before its lead check: called by a non-lead
account on a state still holding such a key, it returns an error and yet
has modified storage, refuting the claim that failed calls leave the
state exactly as it was. -/
theorem c3_counterexample :
    (updateCategoryMembershipOfModerator exEnv exStateLegacy 5 7 0 true).result =
      .error .OriginNotForumLead ∧
    exStateLegacy.legacyForumUserById = [3] ∧
    (updateCategoryMembershipOfModerator exEnv exStateLegacy 5 7 0 true).state.legacyForumUserById = [] ∧
    (updateCategoryMembershipOfModerator exEnv exStateLegacy 5 7 0 true).state ≠ exStateLegacy := by
  decide

/-- C4 counterexample.  An archived thread holding a live two-alternative
poll, a verified member caller and a valid index satisfy every premise
of the claim, yet vote_on_poll fails with ThreadImmutable: the claim
omits the thread-mutability requirement enforced by the code. -/
theorem c4_counterexample :
    exEnv.is_forum_member 2 20 = true ∧
    (alookup exStateArchivedPollThread.threadById (0, 5)).map Thread.poll =
      some (some exPoll) ∧
    (¬ exPoll.end_time < exEnv.now) ∧
    0 < exPoll.poll_alternatives.length ∧
    (voteOnPoll exEnv exStateArchivedPollThread 2 20 0 5 0).result = .error .ThreadImmutable := by
  decide

/-- C7 counterexample.  Category 1 is a non-root empty category and
moderator 7 is assigned to category 1 itself with a matching account,
yet delete_category by Moderator 7 fails with ModeratorCantDeleteCategory:
the privilege walk for deletion starts at the parent category, so
assignment to the category itself does not authorize its deletion. -/
theorem c7_counterexample :
    (alookup exStateChildModerator.categoryById 1).map Category.parent_category_id =
      some (some 0) ∧
    (categoryGet exStateChildModerator 1).num_direct_threads = 0 ∧
    (categoryGet exStateChildModerator 1).num_direct_subcategories = 0 ∧
    acontains exStateChildModerator.categoryByModerator (1, 7) = true ∧
    exEnv.is_moderator 3 7 = true ∧
    (deleteCategory exEnv exStateChildModerator 3 (.Moderator 7) 1).result =
      .error .ModeratorCantDeleteCategory := by
  decide

/-- C6.  For an existing category, the moderation path check authorizes
Lead unconditionally, and authorizes Moderator m exactly when m is
assigned to at least one category on the leaf-to-root ancestor path of
the target category (both ends included); otherwise it fails with
ModeratorCantUpdateCategory. -/
theorem c6_moderation_authorization (s : ForumState) (category_id moderator_id : Nat)
    (hex : acontains s.categoryById category_id = true) :
    ensureCanModerateCategoryPath s .Lead category_id = .ok (categoryGet s category_id) ∧
    (ensureCanModerateCategoryPath s (.Moderator moderator_id) category_id =
        .ok (categoryGet s category_id) ↔
      ∃ item ∈ buildCategoryTreePath s category_id,
        acontains s.categoryByModerator (item.1, moderator_id) = true) ∧
    ((¬ ∃ item ∈ buildCategoryTreePath s category_id,
        acontains s.categoryByModerator (item.1, moderator_id) = true) →
      ensureCanModerateCategoryPath s (.Moderator moderator_id) category_id =
        .error .ModeratorCantUpdateCategory) := by
  refine ⟨?_, ⟨?_, ?_⟩, ?_⟩
  · simp [ensureCanModerateCategoryPath, buildCategoryTreePath_head]
  · intro h
    rcases check_moderator_ok_or_error s moderator_id (buildCategoryTreePath s category_id) with hc | hc
    · exact (check_moderator_ok_iff s moderator_id (buildCategoryTreePath s category_id)).1 hc
    · simp [ensureCanModerateCategoryPath, hc] at h
  · intro h
    have hc := (check_moderator_ok_iff s moderator_id (buildCategoryTreePath s category_id)).2 h
    simp [ensureCanModerateCategoryPath, hc, buildCategoryTreePath_head]
  · intro h
    have hc :
        check_moderator s (buildCategoryTreePath s category_id) moderator_id =
          .error .ModeratorCantUpdateCategory := by
      rcases check_moderator_ok_or_error s moderator_id (buildCategoryTreePath s category_id) with hc | hc
      · exact absurd ((check_moderator_ok_iff s moderator_id (buildCategoryTreePath s category_id)).1 hc) h
      · exact hc
    simp [ensureCanModerateCategoryPath, hc]

/-- C6 witness: in the parent-moderator fixture, category 1 exists and
the Lead authorization conclusion holds there. -/
theorem c6_moderation_authorization_witness :
    acontains exStateParentModerator.categoryById 1 = true ∧
    ensureCanModerateCategoryPath exStateParentModerator .Lead 1 =
      .ok (categoryGet exStateParentModerator 1) := by
  exact ⟨by decide, (c6_moderation_authorization exStateParentModerator 1 7 (by decide)).1⟩

/-- C9.  With a lead caller under the global category capacity and an
existing parent category, create_category fails with
MaxValidCategoryDepthExceeded exactly when the parent's ancestor-path
length plus one exceeds MaxCategoryDepth; no archival hypothesis
appears because the depth check decides before any archival check. -/
theorem c9_create_category_depth_error_iff (env : Env) (s : ForumState)
    (account_id parent_category_id : Nat) (title description : List Nat)
    (hmig : s.dataMigrationDone = true)
    (hlead : env.is_lead account_id = true)
    (hcap : s.categoryCounter < env.MaxCategories)
    (hex : acontains s.categoryById parent_category_id = true) :
    (createCategory env s account_id (some parent_category_id) title description).result =
        .error .MaxValidCategoryDepthExceeded ↔
      env.MaxCategoryDepth < (buildCategoryTreePath s parent_category_id).length + 1 := by
  have hcap' : ¬ s.categoryCounter ≥ env.MaxCategories := Nat.not_le.mpr hcap
  by_cases hd : (buildCategoryTreePath s parent_category_id).length ≥ env.MaxCategoryDepth
  · constructor
    · intro _
      omega
    · intro _
      simp [createCategory, ensureDataMigrationDone, hmig, ensureCanCreateCategory,
        ensureIsForumLeadAccount, hlead, ensureMapLimits, hcap',
        ensureCanAddSubcategoryPathLeaf, ensureValidCategoryAndBuildCategoryTreePath, hex, hd]
  · constructor
    · intro h
      exfalso
      by_cases ha :
          (buildCategoryTreePath s parent_category_id).any (fun item => item.2.archived) = true
      · simp [createCategory, ensureDataMigrationDone, hmig, ensureCanCreateCategory,
          ensureIsForumLeadAccount, hlead, ensureMapLimits, hcap',
          ensureCanAddSubcategoryPathLeaf, ensureValidCategoryAndBuildCategoryTreePath, hex, hd,
          ensureCanMutateInPathLeaf, ha] at h
      · simp only [Bool.not_eq_true] at ha
        by_cases hsub :
            (categoryGet s parent_category_id).num_direct_subcategories ≥ env.MaxSubcategories
        · simp [createCategory, ensureDataMigrationDone, hmig, ensureCanCreateCategory,
            ensureIsForumLeadAccount, hlead, ensureMapLimits, hcap',
            ensureCanAddSubcategoryPathLeaf, ensureValidCategoryAndBuildCategoryTreePath, hex, hd,
            ensureCanMutateInPathLeaf, ha, hsub] at h
        · simp [createCategory, ensureDataMigrationDone, hmig, ensureCanCreateCategory,
            ensureIsForumLeadAccount, hlead, ensureMapLimits, hcap',
            ensureCanAddSubcategoryPathLeaf, ensureValidCategoryAndBuildCategoryTreePath, hex, hd,
            ensureCanMutateInPathLeaf, ha, hsub] at h
    · intro h
      exfalso
      omega

/-- C9 witness: with depth limit one, creating a subcategory of the
archived root fixture fails with the depth error, the archival status of
the parent notwithstanding. -/
theorem c9_create_category_depth_error_iff_witness :
    (createCategory exEnvDepth1 exStateArchivedRoot 1 (some 0) [1] [2]).result =
      .error .MaxValidCategoryDepthExceeded ∧
    (categoryGet exStateArchivedRoot 0).archived = true := by
  refine ⟨?_, by decide⟩
  exact (c9_create_category_depth_error_iff exEnvDepth1 exStateArchivedRoot 1 0 [1] [2]
    (by decide) (by decide) (by decide) (by decide)).2 (by decide)

/-- C3 (amended).  Whenever a dispatchable returns an error, no event is
deposited and the storage is exactly as before the call, except that
update_category_membership_of_moderator may have cleared the legacy
storage keys, which it does before its validation checks. -/
theorem c3_failed_call_leaves_state (env : Env) (s : ForumState) (account_id : Nat)
    (c : Call) (e : ForumError)
    (h : (dispatch env s account_id c).result = .error e) :
    (dispatch env s account_id c).events = [] ∧
    ((dispatch env s account_id c).state = s ∨
      ((∃ moderator_id category_id new_value,
          c = Call.updateCategoryMembershipOfModerator moderator_id category_id new_value) ∧
        (dispatch env s account_id c).state = { s with legacyForumUserById := [] })) := by
  cases c with
  | updateCategoryMembershipOfModerator moderator_id category_id new_value =>
      have hf := updateCategoryMembershipOfModerator_error_frame env s account_id
        moderator_id category_id new_value e h
      rcases hf with ⟨hev, hst | hst⟩
      · exact ⟨hev, Or.inl hst⟩
      · exact ⟨hev, Or.inr ⟨⟨moderator_id, category_id, new_value, rfl⟩, hst⟩⟩
  | createCategory parent_category_id title description =>
      have hf := createCategory_error_frame env s account_id parent_category_id title description e h
      exact ⟨hf.2, Or.inl hf.1⟩
  | updateCategoryArchivalStatus actor category_id b =>
      have hf := updateCategoryArchivalStatus_error_frame env s account_id actor category_id b e h
      exact ⟨hf.2, Or.inl hf.1⟩
  | deleteCategory actor category_id =>
      have hf := deleteCategory_error_frame env s account_id actor category_id e h
      exact ⟨hf.2, Or.inl hf.1⟩
  | createThread forum_user_id category_id title text poll =>
      have hf := createThread_error_frame env s account_id forum_user_id category_id title text poll e h
      exact ⟨hf.2, Or.inl hf.1⟩
  | editThreadTitle forum_user_id category_id thread_id new_title =>
      have hf := editThreadTitle_error_frame env s account_id forum_user_id category_id thread_id new_title e h
      exact ⟨hf.2, Or.inl hf.1⟩
  | updateThreadArchivalStatus actor category_id thread_id b =>
      have hf := updateThreadArchivalStatus_error_frame env s account_id actor category_id thread_id b e h
      exact ⟨hf.2, Or.inl hf.1⟩
  | deleteThread actor category_id thread_id =>
      have hf := deleteThread_error_frame env s account_id actor category_id thread_id e h
      exact ⟨hf.2, Or.inl hf.1⟩
  | moveThreadToCategory actor category_id thread_id new_category_id =>
      have hf := moveThreadToCategory_error_frame env s account_id actor category_id thread_id new_category_id e h
      exact ⟨hf.2, Or.inl hf.1⟩
  | voteOnPoll forum_user_id category_id thread_id index =>
      have hf := voteOnPoll_error_frame env s account_id forum_user_id category_id thread_id index e h
      exact ⟨hf.2, Or.inl hf.1⟩
  | moderateThread actor category_id thread_id rationale =>
      have hf := moderateThread_error_frame env s account_id actor category_id thread_id rationale e h
      exact ⟨hf.2, Or.inl hf.1⟩
  | addPost forum_user_id category_id thread_id text =>
      have hf := addPost_error_frame env s account_id forum_user_id category_id thread_id text e h
      exact ⟨hf.2, Or.inl hf.1⟩
  | reactPost forum_user_id category_id thread_id post_id react =>
      have hf := reactPost_error_frame env s account_id forum_user_id category_id thread_id post_id react e h
      exact ⟨hf.2, Or.inl hf.1⟩
  | editPostText forum_user_id category_id thread_id post_id new_text =>
      have hf := editPostText_error_frame env s account_id forum_user_id category_id thread_id post_id new_text e h
      exact ⟨hf.2, Or.inl hf.1⟩
  | moderatePost actor category_id thread_id post_id rationale =>
      have hf := moderatePost_error_frame env s account_id actor category_id thread_id post_id rationale e h
      exact ⟨hf.2, Or.inl hf.1⟩
  | setStickiedThreads actor category_id stickied_ids =>
      have hf := setStickiedThreads_error_frame env s account_id actor category_id stickied_ids e h
      exact ⟨hf.2, Or.inl hf.1⟩

/-- C3 witness: a delete_category call by a non-lead actor fails with the
lead-permission error and leaves the fixture state untouched with no
events. -/
theorem c3_failed_call_leaves_state_witness :
    (dispatch exEnv exBaseState 5 (.deleteCategory .Lead 0)).result =
      .error .OriginNotForumLead ∧
    (dispatch exEnv exBaseState 5 (.deleteCategory .Lead 0)).events = [] ∧
    ((dispatch exEnv exBaseState 5 (.deleteCategory .Lead 0)).state = exBaseState ∨
      ((∃ moderator_id category_id new_value,
          (Call.deleteCategory .Lead 0 : Call) =
            Call.updateCategoryMembershipOfModerator moderator_id category_id new_value) ∧
        (dispatch exEnv exBaseState 5 (.deleteCategory .Lead 0)).state =
          { exBaseState with legacyForumUserById := [] })) := by
  have h : (dispatch exEnv exBaseState 5 (.deleteCategory .Lead 0)).result =
      .error .OriginNotForumLead := by decide
  have hf := c3_failed_call_leaves_state exEnv exBaseState 5 (.deleteCategory .Lead 0)
    .OriginNotForumLead h
  exact ⟨h, hf.1, hf.2⟩

/-- C7 (amended).  For a non-root empty category, delete_category by a
moderator with a matching account succeeds exactly when the moderator is
assigned to some category on the ancestor path of the PARENT category
(the strict ancestors of the target, parent included); assignment to the
target category itself does not authorize its deletion. -/
theorem c7_delete_by_parent_path_moderator (env : Env) (s : ForumState)
    (account_id moderator_id category_id parent_category_id : Nat) (cat : Category)
    (hmig : s.dataMigrationDone = true)
    (hmod : env.is_moderator account_id moderator_id = true)
    (hcat : alookup s.categoryById category_id = some cat)
    (hparent : cat.parent_category_id = some parent_category_id)
    (ht : cat.num_direct_threads = 0)
    (hs : cat.num_direct_subcategories = 0) :
    (deleteCategory env s account_id (.Moderator moderator_id) category_id).result = .ok () ↔
      ∃ item ∈ buildCategoryTreePath s parent_category_id,
        acontains s.categoryByModerator (item.1, moderator_id) = true := by
  have hrole : ensureActorRole env account_id (.Moderator moderator_id) = .ok () := by
    simp [ensureActorRole, ensureIsModeratorAccount, hmod]
  have hcont := acontains_of_lookup_some hcat
  have hget : categoryGet s category_id = cat := by simp [categoryGet, hcat]
  constructor
  · intro h
    rcases check_moderator_ok_or_error s moderator_id
        (buildCategoryTreePath s parent_category_id) with hc | hc
    · exact (check_moderator_ok_iff s moderator_id (buildCategoryTreePath s parent_category_id)).1 hc
    · exfalso
      have hpath : ensureCanModerateCategoryPath s (.Moderator moderator_id) parent_category_id =
          .error .ModeratorCantUpdateCategory := by
        simp [ensureCanModerateCategoryPath, hc]
      simp [deleteCategory, ensureDataMigrationDone, hmig, ensureCanDeleteCategory, hrole,
        hcont, hget, ht, hs, hparent, hpath] at h
  · intro h
    have hc := (check_moderator_ok_iff s moderator_id
      (buildCategoryTreePath s parent_category_id)).2 h
    have hpath : ensureCanModerateCategoryPath s (.Moderator moderator_id) parent_category_id =
        .ok (categoryGet s parent_category_id) := by
      simp [ensureCanModerateCategoryPath, hc, buildCategoryTreePath_head]
    simp [deleteCategory, ensureDataMigrationDone, hmig, ensureCanDeleteCategory, hrole,
      hcont, hget, ht, hs, hparent, hpath]

/-- C7 witness: moderator 7, assigned to the root parent, can delete the
empty child category 1. -/
theorem c7_delete_by_parent_path_moderator_witness :
    (deleteCategory exEnv exStateParentModerator 3 (.Moderator 7) 1).result = .ok () := by
  exact (c7_delete_by_parent_path_moderator exEnv exStateParentModerator 3 7 1 0
    { defaultCategory with parent_category_id := some 0, num_direct_moderators := 1 }
    (by decide) (by decide) (by decide) (by decide) (by decide) (by decide)).2 (by decide)

/-- C8.  For an existing category with an actor that passes the role
check and holds deletion privilege (path privilege over the parent, or
Lead at a root), delete_category succeeds exactly when both emptiness
counters are zero; a nonzero thread counter yields
CategoryNotEmptyThreads, a nonzero subcategory counter (with zero
threads) yields CategoryNotEmptyCategories, and every failure leaves the
state unchanged with no events. -/
theorem c8_delete_category_empty_iff (env : Env) (s : ForumState) (account_id : Nat)
    (actor : PrivilegedActor) (category_id : Nat) (cat : Category)
    (hmig : s.dataMigrationDone = true)
    (hcat : alookup s.categoryById category_id = some cat)
    (hrole : ensureActorRole env account_id actor = .ok ())
    (hperm1 : ∀ parent_category_id, cat.parent_category_id = some parent_category_id →
      ∃ c', ensureCanModerateCategoryPath s actor parent_category_id = .ok c')
    (hperm2 : cat.parent_category_id = none → actor = .Lead) :
    ((deleteCategory env s account_id actor category_id).result = .ok () ↔
      (cat.num_direct_threads = 0 ∧ cat.num_direct_subcategories = 0)) ∧
    (cat.num_direct_threads ≠ 0 →
      (deleteCategory env s account_id actor category_id).result =
        .error .CategoryNotEmptyThreads) ∧
    (cat.num_direct_threads = 0 → cat.num_direct_subcategories ≠ 0 →
      (deleteCategory env s account_id actor category_id).result =
        .error .CategoryNotEmptyCategories) ∧
    (∀ e, (deleteCategory env s account_id actor category_id).result = .error e →
      (deleteCategory env s account_id actor category_id).state = s ∧
      (deleteCategory env s account_id actor category_id).events = []) := by
  have hcont := acontains_of_lookup_some hcat
  have hget : categoryGet s category_id = cat := by simp [categoryGet, hcat]
  refine ⟨?_, ?_, ?_, ?_⟩
  · by_cases ht : cat.num_direct_threads = 0
    · by_cases hsub : cat.num_direct_subcategories = 0
      · have hok : ensureCanDeleteCategory env s account_id actor category_id = .ok cat := by
          cases hpc : cat.parent_category_id with
          | some parent_category_id =>
              obtain ⟨c', hp⟩ := hperm1 parent_category_id hpc
              simp [ensureCanDeleteCategory, hrole, hcont, hget, ht, hsub, hpc, hp]
          | none =>
              have hl := hperm2 hpc
              subst hl
              simp [ensureCanDeleteCategory, hrole, hcont, hget, ht, hsub, hpc]
        simp [deleteCategory, ensureDataMigrationDone, hmig, hok, ht, hsub]
      · have herr : ensureCanDeleteCategory env s account_id actor category_id =
            .error .CategoryNotEmptyCategories := by
          simp [ensureCanDeleteCategory, hrole, hcont, hget, ht, hsub]
        simp [deleteCategory, ensureDataMigrationDone, hmig, herr, hsub]
    · have herr : ensureCanDeleteCategory env s account_id actor category_id =
          .error .CategoryNotEmptyThreads := by
        simp [ensureCanDeleteCategory, hrole, hcont, hget, ht]
      simp [deleteCategory, ensureDataMigrationDone, hmig, herr, ht]
  · intro ht
    have herr : ensureCanDeleteCategory env s account_id actor category_id =
        .error .CategoryNotEmptyThreads := by
      simp [ensureCanDeleteCategory, hrole, hcont, hget, ht]
    simp [deleteCategory, ensureDataMigrationDone, hmig, herr]
  · intro ht hsub
    have herr : ensureCanDeleteCategory env s account_id actor category_id =
        .error .CategoryNotEmptyCategories := by
      simp [ensureCanDeleteCategory, hrole, hcont, hget, ht, hsub]
    simp [deleteCategory, ensureDataMigrationDone, hmig, herr]
  · intro e he
    exact deleteCategory_error_frame env s account_id actor category_id e he

/-- C4 (amended).  For a thread stored under its own category_id whose
thread and ancestor categories are unarchived, holding a poll with
end_time not earlier than the clock, and an index below the alternative
count, a vote by a verified member succeeds; the stored thread is
replaced by the same thread whose poll has exactly the voted
alternative's count incremented, all other alternatives, the poll
description and end time, every other thread field and every other
storage item unchanged; and an immediately repeated identical vote also
succeeds and increments the same count again. -/
theorem c4_vote_on_poll_effect (env : Env) (s : ForumState)
    (account_id forum_user_id category_id thread_id index : Nat) (th : Thread) (p : Poll)
    (hmig : s.dataMigrationDone = true)
    (hmem : env.is_forum_member account_id forum_user_id = true)
    (hth : alookup s.threadById (category_id, thread_id) = some th)
    (harch : th.archived = false)
    (hcid : th.category_id = category_id)
    (hpath : (buildCategoryTreePath s category_id).any (fun item => item.2.archived) = false)
    (hpoll : th.poll = some p)
    (hexp : ¬ p.end_time < env.now)
    (hidx : index < p.poll_alternatives.length) :
    (voteOnPoll env s account_id forum_user_id category_id thread_id index).result = .ok () ∧
    (voteOnPoll env s account_id forum_user_id category_id thread_id index).state =
      { s with threadById := (ainsert s.threadById (category_id, thread_id) { th with poll := some { p with poll_alternatives := votedAlternatives index 0 p.poll_alternatives } }) } ∧
    (votedAlternatives index 0 p.poll_alternatives).length = p.poll_alternatives.length ∧
    (votedAlternatives index 0 p.poll_alternatives)[index]? =
      (p.poll_alternatives[index]?).map (fun a => { a with vote_count := a.vote_count + 1 }) ∧
    (∀ j, j ≠ index →
      (votedAlternatives index 0 p.poll_alternatives)[j]? = p.poll_alternatives[j]?) ∧
    (voteOnPoll env (voteOnPoll env s account_id forum_user_id category_id thread_id index).state
      account_id forum_user_id category_id thread_id index).result = .ok () ∧
    alookup (voteOnPoll env
        (voteOnPoll env s account_id forum_user_id category_id thread_id index).state
        account_id forum_user_id category_id thread_id index).state.threadById
        (category_id, thread_id) =
      some { th with poll := some { p with poll_alternatives := votedAlternatives index 0 (votedAlternatives index 0 p.poll_alternatives) } } := by
  have h1 := voteOnPoll_ok_effect env s account_id forum_user_id category_id thread_id index th p
    hmig hmem hth harch hcid hpath hpoll hexp hidx
  have hstate : (voteOnPoll env s account_id forum_user_id category_id thread_id index).state =
      { s with threadById := (ainsert s.threadById (category_id, thread_id) { th with poll := some { p with poll_alternatives := votedAlternatives index 0 p.poll_alternatives } }) } := by
    rw [h1]
  have hres : (voteOnPoll env s account_id forum_user_id category_id thread_id index).result =
      .ok () := by
    rw [h1]
  have hth2 :
      alookup (voteOnPoll env s account_id forum_user_id category_id thread_id index).state.threadById
        (category_id, thread_id) =
      some { th with poll := some { p with poll_alternatives := votedAlternatives index 0 p.poll_alternatives } } := by
    rw [hstate]
    exact alookup_ainsert_self s.threadById (category_id, thread_id) _
  have hpath2 :
      (buildCategoryTreePath
        (voteOnPoll env s account_id forum_user_id category_id thread_id index).state
        category_id).any (fun item => item.2.archived) = false := by
    rw [buildCategoryTreePath_eq_of_categoryById
      (voteOnPoll env s account_id forum_user_id category_id thread_id index).state s
      (by rw [hstate]) category_id]
    exact hpath
  have hidx2 : index < (votedAlternatives index 0 p.poll_alternatives).length := by
    rw [votedAlternatives_length]
    exact hidx
  have h2 := voteOnPoll_ok_effect env
    (voteOnPoll env s account_id forum_user_id category_id thread_id index).state
    account_id forum_user_id category_id thread_id index
    { th with poll := some { p with poll_alternatives := votedAlternatives index 0 p.poll_alternatives } }
    { p with poll_alternatives := votedAlternatives index 0 p.poll_alternatives }
    (by rw [hstate]; exact hmig) hmem hth2 harch hcid hpath2 rfl hexp hidx2
  refine ⟨hres, hstate, votedAlternatives_length index 0 p.poll_alternatives, ?_, ?_, ?_, ?_⟩
  · rw [votedAlternatives_getElem index p.poll_alternatives 0 index]
    simp
  · intro j hj
    rw [votedAlternatives_getElem index p.poll_alternatives 0 j]
    have hne : ¬ index = 0 + j := by omega
    have hne' : ¬ index = j := by omega
    cases hval : p.poll_alternatives[j]? with
    | none => simp
    | some a => simp [hne, hne']
  · rw [h2]
  · rw [h2]
    exact alookup_ainsert_self _ (category_id, thread_id) _

/-- C4 witness: member 20 votes twice for alternative 1 of the live poll
in the unarchived-thread fixture; both votes succeed and the second
leaves that alternative with two votes. -/
theorem c4_vote_on_poll_effect_witness :
    (voteOnPoll exEnv exStatePollThread 2 20 0 5 1).result = .ok () ∧
    alookup (voteOnPoll exEnv (voteOnPoll exEnv exStatePollThread 2 20 0 5 1).state
        2 20 0 5 1).state.threadById (0, 5) =
      some { (⟨0, 0, 20, false, some exPoll, 1⟩ : Thread) with poll := some { exPoll with poll_alternatives := votedAlternatives 1 0 (votedAlternatives 1 0 exPoll.poll_alternatives) } } := by
  have h := c4_vote_on_poll_effect exEnv exStatePollThread 2 20 0 5 1
    (⟨0, 0, 20, false, some exPoll, 1⟩ : Thread) exPoll
    (by decide) (by decide) (by decide) (by decide) (by decide) (by decide) (by decide)
    (by decide) (by decide)
  exact ⟨h.1, h.2.2.2.2.2.2⟩

theorem moveThreadToCategory_ok_ne (env : Env) (s : ForumState) (account_id : Nat)
    (actor : PrivilegedActor) (category_id thread_id new_category_id : Nat)
    (hok : (moveThreadToCategory env s account_id actor category_id thread_id new_category_id).result = .ok ()) :
    category_id ≠ new_category_id := by
  cases hmg : ensureDataMigrationDone s with
  | error e1 => simp [moveThreadToCategory, hmg] at hok
  | ok u =>
      cases hmv : ensureCanMoveThread env s account_id actor category_id thread_id new_category_id with
      | error e2 => simp [moveThreadToCategory, hmg, hmv] at hok
      | ok t => exact (ensureCanMoveThread_ok hmv).2

/-- C5.  A successful move_thread_to_category stores the unchanged thread
value under the destination key and removes the source key, adjusting
both thread counters, while the stored category_id field still names the
source category; consequently a subsequent successful edit_thread_title,
delete_thread, moderate_thread or vote_on_poll addressed at the thread's
actual location writes through that stale field to the source key and
leaves the thread stored at the destination key untouched. -/
theorem c5_move_thread_stale_category_field (env : Env) (s : ForumState) (account_id : Nat)
    (actor : PrivilegedActor) (category_id thread_id new_category_id : Nat) (th : Thread)
    (hth : alookup s.threadById (category_id, thread_id) = some th)
    (hcid : th.category_id = category_id)
    (hcnt : 1 ≤ (categoryGet s category_id).num_direct_threads)
    (hok : (moveThreadToCategory env s account_id actor category_id thread_id new_category_id).result = .ok ()) :
    alookup (moveThreadToCategory env s account_id actor category_id thread_id new_category_id).state.threadById
        (new_category_id, thread_id) = some th ∧
    th.category_id = category_id ∧
    alookup (moveThreadToCategory env s account_id actor category_id thread_id new_category_id).state.threadById
        (category_id, thread_id) = none ∧
    (categoryGet (moveThreadToCategory env s account_id actor category_id thread_id new_category_id).state
        category_id).num_direct_threads + 1 = (categoryGet s category_id).num_direct_threads ∧
    (categoryGet (moveThreadToCategory env s account_id actor category_id thread_id new_category_id).state
        new_category_id).num_direct_threads = (categoryGet s new_category_id).num_direct_threads + 1 ∧
    (∀ account2 forum_user2 title2,
      (editThreadTitle env (moveThreadToCategory env s account_id actor category_id thread_id new_category_id).state
          account2 forum_user2 new_category_id thread_id title2).result = .ok () →
      alookup (editThreadTitle env (moveThreadToCategory env s account_id actor category_id thread_id new_category_id).state
          account2 forum_user2 new_category_id thread_id title2).state.threadById
        (new_category_id, thread_id) = some th) ∧
    (∀ account2 actor2,
      (deleteThread env (moveThreadToCategory env s account_id actor category_id thread_id new_category_id).state
          account2 actor2 new_category_id thread_id).result = .ok () →
      alookup (deleteThread env (moveThreadToCategory env s account_id actor category_id thread_id new_category_id).state
          account2 actor2 new_category_id thread_id).state.threadById
        (new_category_id, thread_id) = some th) ∧
    (∀ account2 actor2 rationale2,
      (moderateThread env (moveThreadToCategory env s account_id actor category_id thread_id new_category_id).state
          account2 actor2 new_category_id thread_id rationale2).result = .ok () →
      alookup (moderateThread env (moveThreadToCategory env s account_id actor category_id thread_id new_category_id).state
          account2 actor2 new_category_id thread_id rationale2).state.threadById
        (new_category_id, thread_id) = some th) ∧
    (∀ account2 forum_user2 index2,
      (voteOnPoll env (moveThreadToCategory env s account_id actor category_id thread_id new_category_id).state
          account2 forum_user2 new_category_id thread_id index2).result = .ok () →
      alookup (voteOnPoll env (moveThreadToCategory env s account_id actor category_id thread_id new_category_id).state
          account2 forum_user2 new_category_id thread_id index2).state.threadById
        (new_category_id, thread_id) = some th) := by
  have hne := moveThreadToCategory_ok_ne env s account_id actor category_id thread_id
    new_category_id hok
  have heff := moveThreadToCategory_ok_effect env s account_id actor category_id thread_id
    new_category_id th hth hcid hok
  have hkey : ((new_category_id, thread_id) : Nat × Nat) ≠ (category_id, thread_id) := by
    intro hx
    exact hne (congrArg Prod.fst hx).symm
  have hkey' : ((category_id, thread_id) : Nat × Nat) ≠ (new_category_id, thread_id) := by
    intro hx
    exact hne (congrArg Prod.fst hx)
  have hA : alookup (moveThreadToCategory env s account_id actor category_id thread_id new_category_id).state.threadById
      (new_category_id, thread_id) = some th := by
    rw [heff]
    exact alookup_ainsert_self _ _ _
  refine ⟨hA, hcid, ?_, ?_, ?_, ?_, ?_, ?_, ?_⟩
  · rw [heff]
    show alookup (ainsert (aremove s.threadById (category_id, thread_id))
      (new_category_id, thread_id) th) (category_id, thread_id) = none
    rw [alookup_ainsert_ne _ _ _ _ hkey']
    exact alookup_aremove_self _ _
  · rw [heff]
    show (categoryGet (catMutate (catMutate _ category_id _) new_category_id _) category_id).num_direct_threads + 1 =
      (categoryGet s category_id).num_direct_threads
    rw [categoryGet_catMutate_ne _ _ _ _ hne, categoryGet_catMutate_self]
    show (categoryGet s category_id).num_direct_threads - 1 + 1 =
      (categoryGet s category_id).num_direct_threads
    omega
  · rw [heff]
    show (categoryGet (catMutate (catMutate _ category_id _) new_category_id _) new_category_id).num_direct_threads =
      (categoryGet s new_category_id).num_direct_threads + 1
    rw [categoryGet_catMutate_self, categoryGet_catMutate_ne _ _ _ _ (Ne.symm hne)]
    rfl
  · intro account2 forum_user2 title2 hedit
    cases hmg2 : ensureDataMigrationDone
        (moveThreadToCategory env s account_id actor category_id thread_id new_category_id).state with
    | error e => simp [editThreadTitle, hmg2] at hedit
    | ok u2 =>
        cases he2 : ensureCanEditThreadTitle env
            (moveThreadToCategory env s account_id actor category_id thread_id new_category_id).state
            account2 new_category_id thread_id forum_user2 with
        | error e => simp [editThreadTitle, hmg2, he2] at hedit
        | ok t2 =>
            have hlk2 := ensureCanEditThreadTitle_ok he2
            have ht2 : t2 = th := by
              rw [hlk2] at hA
              exact Option.some.inj hA
            subst ht2
            simp only [editThreadTitle, hmg2, he2, threadMutate, hcid]
            rw [alookup_ainsert_ne _ _ _ _ hkey]
            exact hA
  · intro account2 actor2 hdel
    cases hmg2 : ensureDataMigrationDone
        (moveThreadToCategory env s account_id actor category_id thread_id new_category_id).state with
    | error e => simp [deleteThread, hmg2] at hdel
    | ok u2 =>
        cases hmv2 : ensureCanModerateThread env
            (moveThreadToCategory env s account_id actor category_id thread_id new_category_id).state
            account2 actor2 new_category_id thread_id with
        | error e => simp [deleteThread, hmg2, hmv2] at hdel
        | ok t2 =>
            have hlk2 := ensureCanModerateThread_ok hmv2
            have ht2 : t2 = th := by
              rw [hlk2] at hA
              exact Option.some.inj hA
            subst ht2
            simp only [deleteThread, hmg2, hmv2, deleteThreadInner, catMutate, hcid]
            rw [alookup_aremove_ne _ _ _ hkey]
            exact hA
  · intro account2 actor2 rationale2 hmod
    cases hmg2 : ensureDataMigrationDone
        (moveThreadToCategory env s account_id actor category_id thread_id new_category_id).state with
    | error e => simp [moderateThread, hmg2] at hmod
    | ok u2 =>
        cases hmv2 : ensureCanModerateThread env
            (moveThreadToCategory env s account_id actor category_id thread_id new_category_id).state
            account2 actor2 new_category_id thread_id with
        | error e => simp [moderateThread, hmg2, hmv2] at hmod
        | ok t2 =>
            have hlk2 := ensureCanModerateThread_ok hmv2
            have ht2 : t2 = th := by
              rw [hlk2] at hA
              exact Option.some.inj hA
            subst ht2
            simp only [moderateThread, hmg2, hmv2, deleteThreadInner, catMutate, hcid]
            rw [alookup_aremove_ne _ _ _ hkey]
            exact hA
  · intro account2 forum_user2 index2 hvote
    cases hmg2 : ensureDataMigrationDone
        (moveThreadToCategory env s account_id actor category_id thread_id new_category_id).state with
    | error e => simp [voteOnPoll, hmg2] at hvote
    | ok u2 =>
        cases hu2 : ensureIsForumUser env account2 forum_user2 with
        | error e => simp [voteOnPoll, hmg2, hu2] at hvote
        | ok u3 =>
            cases hm2 : ensureThreadIsMutable
                (moveThreadToCategory env s account_id actor category_id thread_id new_category_id).state
                new_category_id thread_id with
            | error e => simp [voteOnPoll, hmg2, hu2, hm2] at hvote
            | ok ct =>
                obtain ⟨c2, t2⟩ := ct
                have hlk2 := ensureThreadIsMutable_ok hm2
                have ht2 : t2 = th := by
                  have hA2 := hA
                  rw [hlk2] at hA2
                  exact Option.some.inj hA2
                cases hv2 : ensureVoteIsValid env t2 index2 with
                | error e => simp [voteOnPoll, hmg2, hu2, hm2, hv2] at hvote
                | ok poll2 =>
                    simp only [voteOnPoll, hmg2, hu2, hm2, hv2, threadMutate]
                    rw [ht2, hcid]
                    rw [alookup_ainsert_ne _ _ _ _ hkey]
                    exact hA

/-- C5 witness: the lead moves thread 5 from category 0 to category 1 in
the two-category fixture; the theorem's conclusions apply there. -/
theorem c5_move_thread_stale_category_field_witness :
    alookup (moveThreadToCategory exEnv exStateTwoCategories 1 .Lead 0 5 1).state.threadById (1, 5) =
      some (⟨3, 0, 20, false, none, 1⟩ : Thread) ∧
    alookup (moveThreadToCategory exEnv exStateTwoCategories 1 .Lead 0 5 1).state.threadById (0, 5) =
      none := by
  have h := c5_move_thread_stale_category_field exEnv exStateTwoCategories 1 .Lead 0 5 1
    (⟨3, 0, 20, false, none, 1⟩ : Thread) (by decide) (by decide) (by decide) (by decide)
  exact ⟨h.1, h.2.2.1⟩

/-- C8 witness: the lead deletes the empty root category of the base
fixture; the success side of the equivalence holds there. -/
theorem c8_delete_category_empty_iff_witness :
    (deleteCategory exEnv exBaseState 1 .Lead 0).result = .ok () := by
  refine ((c8_delete_category_empty_iff exEnv exBaseState 1 .Lead 0 defaultCategory
    (by decide) (by decide) (by decide) ?_ ?_).1).2 (by decide)
  · intro parent_category_id hp
    simp [defaultCategory] at hp
  · intro _
    rfl

end Forum
